import Mathlib

/-!
Verification of the mk48-plus server spawn and policy subsystem.

The catalog below is transcribed from the attribute-decorated enum in
src/common/src/entity/_type.rs: for every variant we record the kind,
sub-kind, level (0 when the attribute is absent, matching the catalog
serde default of the generator in src/macros/src/lib.rs), the npc flag (no
variant carries an npc attribute, so it is false throughout), and the
exact length and width from the size attribute, as rational numbers.

Floating point note: the Rust code computes sizes in f32. Every literal
in the catalog is a short decimal, exactly representable as a rational;
all comparisons proved here are between such values, and the square of
hypot (which is l*l + w*w, rational) is used wherever the code takes a
square root, since x -> x*x is strictly monotone on nonnegatives and
only comparisons between nonnegative quantities occur.
-/

set_option maxRecDepth 100000

namespace Mk48
inductive EntityKind
  | Boat
  | Aircraft
  | Weapon
  | Turret
  | Decoy
  | Collectible
  | Obstacle
  deriving DecidableEq

inductive EntitySubKind
  | Tank
  | Plane
  | Heli
  | Submarine
  | Helicopter
  | Destroyer
  | Battleship
  | Corvette
  | Aeroplane
  | Carrier
  | Dreadnought
  | Dredger
  | Drone
  | Ekranoplan
  | Mtb
  | Lcs
  | Pirate
  | Cruiser
  | Minelayer
  | Ram
  | Starship
  | Tanker
  | Icebreaker
  | Passenger
  | Hovercraft
  | LandingShip
  | Score
  | Sonar
  | Missile
  | Tree
  | Structure
  | Gun
  | Sam
  | Rocket
  | Laser
  | Shell
  | TankShell
  | Torpedo
  | RocketTorpedo
  | Depositor
  | Shovel
  | DepthCharge
  | GlideBomb
  | Mine
  deriving DecidableEq

inductive EntityType
  | Abrams
  | Avenger
  | J15
  | E4N
  | TieFighter
  | Harbin
  | Ka25
  | Kingfisher
  | Seahawk
  | Type96
  | SuperEtendard
  | SuperFrelon
  | Z18
  | Akula
  | Apache
  | ArleighBurke
  | Bismarck
  | Buyan
  | B2
  | Clemenceau
  | Kaga
  | Liaoning
  | Chinook
  | Catalina
  | Spitfire
  | J20
  | F35
  | Dreadnought
  | Dredger
  | Drone
  | Espana
  | Ekranoplan
  | Essex
  | FairmileD
  | Fletcher
  | Freccia
  | Freedom
  | G5
  | Golf
  | Indiaman
  | Iowa
  | Kirov
  | Kolkata
  | Komar
  | Leander
  | Lublin
  | Momi
  | Montana
  | Moskva
  | Oberon
  | Ohio
  | Olympias
  | Osa
  | Pt34
  | Seawolf
  | Skipjack
  | Skjold
  | Sherman
  | StarDestroyer
  | Tanker
  | TerryFox
  | Town
  | Type055
  | TypeViic
  | Ticonderoga
  | Titanic
  | Uap
  | Vindicator
  | Visby
  | Virginia
  | Xwing
  | Yamato
  | Yasen
  | Zubr
  | Lst
  | Zudredger
  | Zumwalt
  | Barrel
  | Coin
  | Crate
  | Scrap
  | Brosok
  | Mk70
  | Mk3
  | Moskit
  | Jagm
  | Acacia
  | AverageTree
  | Palm
  | Hq
  | OilPlatform
  | SuperOilPlatform
  | M230
  | Type730
  | Turbolaser
  | ShermanTurret
  | AbramsTurret
  | _100Mm
  | _200Mm
  | _2M3M
  | _38CmSkc34
  | _45Type94
  | _6Pounder
  | _88CmSkc35
  | _M1919
  | A190
  | Ak130
  | Ansaldo
  | Bl6MkXxiii
  | Bl6MkXxiiiX3
  | Bofors57MmMk3
  | Crotale
  | Hq10
  | Hpj38
  | Mark12
  | Mark12X2
  | Mark49
  | Mark51
  | Mark7
  | MarkBViii
  | Ogon
  | OtoMelara76Mm
  | RatepKomar
  | Shtorm
  | VickersMkH12In
  | Blaster
  | GreenBlaster
  | VBlaster
  | VProjector
  | VMissiles
  | _30X130MmR
  | _30X165MmR
  | _762X54MmR
  | _200X1070MmR
  | _127X680MmR
  | _130X720MmR
  | _75X667MmR
  | _120X570MmR
  | _25X129MmR
  | _300X1400MmR
  | _380X1700MmR
  | _458X1980MmR
  | _57X441MmR
  | _76X636MmR
  | _82R
  | Asroc
  | Barak8
  | Pl12
  | BrahMos
  | Hellfire
  | CannonBall
  | Depositor
  | Shovel
  | Essm
  | Exocet
  | Harpoon
  | Hq9
  | Igla
  | Kalibr
  | Lrlap
  | Magic
  | Mark18
  | Mark48
  | Mark54
  | Yu7
  | Mark8
  | Mark9
  | Mistral
  | Nsm
  | Of45
  | RP3
  | P15
  | P700
  | Rbs15
  | Rim116
  | Rpk6
  | S300
  | Set65
  | Tomahawk
  | Torped45
  | Type53
  | V611
  | Vt1
  | Hq10SAM
  | Ls6
  | Wz0839
  | Type96Bomb
  | Mk82
  | Yj18
  deriving DecidableEq

structure CatalogEntry where
  kind : EntityKind
  subKind : EntitySubKind
  level : Nat
  npc : Bool
  length : Rat
  width : Rat

def catalog : EntityType -> CatalogEntry
  | .Abrams => ⟨.Boat, .Tank, 6, false, 7.93, 3.66⟩
  | .Avenger => ⟨.Aircraft, .Plane, 5, false, 12.45, 16.5143⟩
  | .J15 => ⟨.Aircraft, .Plane, 9, false, 22.28, 15.0⟩
  | .E4N => ⟨.Aircraft, .Plane, 5, false, 8.87, 10.25⟩
  | .TieFighter => ⟨.Aircraft, .Plane, 12, false, 7.24, 6.7⟩
  | .Harbin => ⟨.Aircraft, .Heli, 5, false, 14.2143, 13.1038⟩
  | .Ka25 => ⟨.Aircraft, .Heli, 5, false, 15.8, 15.8⟩
  | .Kingfisher => ⟨.Aircraft, .Plane, 5, false, 10.0853, 10.94⟩
  | .Seahawk => ⟨.Aircraft, .Heli, 5, false, 19.6, 16.078⟩
  | .Type96 => ⟨.Aircraft, .Plane, 7, false, 7.565, 11⟩
  | .SuperEtendard => ⟨.Aircraft, .Plane, 7, false, 14.31, 9.4468⟩
  | .SuperFrelon => ⟨.Aircraft, .Heli, 5, false, 23.1, 18.949⟩
  | .Z18 => ⟨.Aircraft, .Heli, 9, false, 23.1, 18.949⟩
  | .Akula => ⟨.Boat, .Submarine, 6, false, 113.3, 20.137⟩
  | .Apache => ⟨.Boat, .Helicopter, 7, false, 17.73, 14.63⟩
  | .ArleighBurke => ⟨.Boat, .Destroyer, 5, false, 154, 20⟩
  | .Bismarck => ⟨.Boat, .Battleship, 7, false, 241.6, 36⟩
  | .Buyan => ⟨.Boat, .Corvette, 4, false, 75, 11.133⟩
  | .B2 => ⟨.Boat, .Aeroplane, 11, false, 21.0, 52.4⟩
  | .Clemenceau => ⟨.Boat, .Carrier, 8, false, 265, 48.6523⟩
  | .Kaga => ⟨.Boat, .Carrier, 10, false, 247.65, 32.5⟩
  | .Liaoning => ⟨.Boat, .Carrier, 9, false, 304.5, 67⟩
  | .Chinook => ⟨.Boat, .Helicopter, 2, false, 30, 18⟩
  | .Catalina => ⟨.Boat, .Aeroplane, 5, false, 19.47863, 32⟩
  | .Spitfire => ⟨.Boat, .Aeroplane, 8, false, 18.24, 22.46⟩
  | .J20 => ⟨.Boat, .Aeroplane, 10, false, 21.2, 13.01⟩
  | .F35 => ⟨.Boat, .Aeroplane, 11, false, 15.7, 11⟩
  | .Dreadnought => ⟨.Boat, .Dreadnought, 4, false, 160.9, 25.1406⟩
  | .Dredger => ⟨.Boat, .Dredger, 4, false, 99, 16.5⟩
  | .Drone => ⟨.Boat, .Drone, 1, false, 1.11333, 1.40667⟩
  | .Espana => ⟨.Boat, .Dreadnought, 3, false, 138.414, 24.331⟩
  | .Ekranoplan => ⟨.Boat, .Ekranoplan, 6, false, 73.8, 44.0⟩
  | .Essex => ⟨.Boat, .Carrier, 6, false, 265.8, 42.5695⟩
  | .FairmileD => ⟨.Boat, .Mtb, 1, false, 35, 6.35⟩
  | .Fletcher => ⟨.Boat, .Destroyer, 4, false, 114.8, 12⟩
  | .Freccia => ⟨.Boat, .Destroyer, 3, false, 96.15, 9.3896⟩
  | .Freedom => ⟨.Boat, .Lcs, 6, false, 115, 17.5⟩
  | .G5 => ⟨.Boat, .Mtb, 1, false, 18.85, 3.5⟩
  | .Golf => ⟨.Boat, .Submarine, 4, false, 98.4, 8.2⟩
  | .Indiaman => ⟨.Boat, .Pirate, 3, false, 52.8143, 13.6162⟩
  | .Iowa => ⟨.Boat, .Battleship, 10, false, 270.4, 32.74⟩
  | .Kirov => ⟨.Boat, .Cruiser, 9, false, 252, 28.793⟩
  | .Kolkata => ⟨.Boat, .Destroyer, 6, false, 163, 17.4⟩
  | .Komar => ⟨.Boat, .Mtb, 1, false, 25.4, 6.24⟩
  | .Leander => ⟨.Boat, .Cruiser, 5, false, 169.1, 17.1⟩
  | .Lublin => ⟨.Boat, .Minelayer, 3, false, 95.8, 10.8⟩
  | .Momi => ⟨.Boat, .Destroyer, 2, false, 85.3, 7.9⟩
  | .Montana => ⟨.Boat, .Battleship, 8, false, 280.8, 36.93⟩
  | .Moskva => ⟨.Boat, .Carrier, 7, false, 189, 34⟩
  | .Oberon => ⟨.Boat, .Submarine, 3, false, 90, 8.25⟩
  | .Ohio => ⟨.Boat, .Submarine, 7, false, 170, 13⟩
  | .Olympias => ⟨.Boat, .Ram, 1, false, 36.9, 5.5⟩
  | .Osa => ⟨.Boat, .Mtb, 3, false, 38.6, 7.64⟩
  | .Pt34 => ⟨.Boat, .Mtb, 1, false, 23, 6.07⟩
  | .Seawolf => ⟨.Boat, .Submarine, 8, false, 108, 17.6133⟩
  | .Skipjack => ⟨.Boat, .Submarine, 5, false, 76.71, 9.65⟩
  | .Skjold => ⟨.Boat, .Corvette, 7, false, 47.5, 13.73⟩
  | .Sherman => ⟨.Boat, .Tank, 4, false, 5.89, 2.87597⟩
  | .StarDestroyer => ⟨.Boat, .Starship, 12, false, 1600, 878⟩
  | .Tanker => ⟨.Boat, .Tanker, 5, false, 179, 30.94⟩
  | .TerryFox => ⟨.Boat, .Icebreaker, 6, false, 88, 17.7031⟩
  | .Town => ⟨.Boat, .Cruiser, 6, false, 180.3, 20.77676⟩
  | .Type055 => ⟨.Boat, .Destroyer, 7, false, 180, 20⟩
  | .TypeViic => ⟨.Boat, .Submarine, 2, false, 67.1, 6.2⟩
  | .Ticonderoga => ⟨.Boat, .Cruiser, 8, false, 173, 16.8⟩
  | .Titanic => ⟨.Boat, .Passenger, 7, false, 269.1, 28.2⟩
  | .Uap => ⟨.Boat, .Drone, 1, false, 12, 7.4165⟩
  | .Vindicator => ⟨.Boat, .Aeroplane, 12, false, 28.8, 29.88⟩
  | .Visby => ⟨.Boat, .Corvette, 5, false, 72.7, 10.4⟩
  | .Virginia => ⟨.Boat, .Submarine, 10, false, 115, 10⟩
  | .Xwing => ⟨.Boat, .Aeroplane, 9, false, 13.4, 11.76⟩
  | .Yamato => ⟨.Boat, .Battleship, 9, false, 263, 40.0664⟩
  | .Yasen => ⟨.Boat, .Submarine, 9, false, 130, 19.804688⟩
  | .Zubr => ⟨.Boat, .Hovercraft, 2, false, 57, 21.152344⟩
  | .Lst => ⟨.Boat, .LandingShip, 4, false, 33.33, 5.66⟩
  | .Zudredger => ⟨.Boat, .Hovercraft, 11, false, 57, 21.152344⟩
  | .Zumwalt => ⟨.Boat, .Destroyer, 8, false, 190, 24.6⟩
  | .Barrel => ⟨.Collectible, .Score, 1, false, 2.72, 1.785⟩
  | .Coin => ⟨.Collectible, .Score, 5, false, 3, 3⟩
  | .Crate => ⟨.Collectible, .Score, 1, false, 2, 2⟩
  | .Scrap => ⟨.Collectible, .Score, 2, false, 3, 3⟩
  | .Brosok => ⟨.Decoy, .Sonar, 4, false, 1.5, 0.28125⟩
  | .Mk70 => ⟨.Decoy, .Sonar, 2, false, 2.075, 0.29⟩
  | .Mk3 => ⟨.Decoy, .Sonar, 5, false, 2.69, 0.159⟩
  | .Moskit => ⟨.Weapon, .Missile, 9, false, 9.745, 0.8⟩
  | .Jagm => ⟨.Weapon, .Missile, 15, false, 1.8, 0.18⟩
  | .Acacia => ⟨.Obstacle, .Tree, 0, false, 10, 10⟩
  | .AverageTree => ⟨.Obstacle, .Tree, 0, false, 12, 12⟩
  | .Palm => ⟨.Obstacle, .Tree, 0, false, 14, 14⟩
  | .Hq => ⟨.Obstacle, .Structure, 0, false, 90, 90⟩
  | .OilPlatform => ⟨.Obstacle, .Structure, 0, false, 90, 90⟩
  | .SuperOilPlatform => ⟨.Obstacle, .Structure, 0, false, 90, 90⟩
  | .M230 => ⟨.Turret, .Gun, 0, false, 2.181, 0.277⟩
  | .Type730 => ⟨.Turret, .Gun, 0, false, 5.0, 3.2917⟩
  | .Turbolaser => ⟨.Turret, .Gun, 0, false, 1, 1⟩
  | .ShermanTurret => ⟨.Turret, .Gun, 0, false, 3.3, 2.2171875⟩
  | .AbramsTurret => ⟨.Turret, .Gun, 0, false, 7.93, 2.8⟩
  | ._100Mm => ⟨.Turret, .Gun, 0, false, 6.7, 4.1875⟩
  | ._200Mm => ⟨.Turret, .Gun, 0, false, 6.7, 4.1875⟩
  | ._2M3M => ⟨.Turret, .Gun, 0, false, 2.975, 1.72⟩
  | ._38CmSkc34 => ⟨.Turret, .Gun, 0, false, 25.6, 11.1⟩
  | ._45Type94 => ⟨.Turret, .Gun, 0, false, 30.35, 16.4791⟩
  | ._6Pounder => ⟨.Turret, .Gun, 0, false, 2.675, 1.588⟩
  | ._88CmSkc35 => ⟨.Turret, .Gun, 0, false, 3.41, 1.812⟩
  | ._M1919 => ⟨.Turret, .Gun, 0, false, 1.346, 0.715⟩
  | .A190 => ⟨.Turret, .Gun, 0, false, 9.45, 3.691⟩
  | .Ak130 => ⟨.Turret, .Gun, 0, false, 8.45, 3.235⟩
  | .Ansaldo => ⟨.Turret, .Gun, 0, false, 6.65, 3.481⟩
  | .Bl6MkXxiii => ⟨.Turret, .Gun, 0, false, 11.9, 5.671⟩
  | .Bl6MkXxiiiX3 => ⟨.Turret, .Gun, 0, false, 12.3, 7.207⟩
  | .Bofors57MmMk3 => ⟨.Turret, .Gun, 0, false, 6.925, 4.2199⟩
  | .Crotale => ⟨.Turret, .Missile, 0, false, 3.575, 2.374⟩
  | .Hq10 => ⟨.Turret, .Sam, 0, false, 5.0, 3.75⟩
  | .Hpj38 => ⟨.Turret, .Gun, 0, false, 12.2, 3.621875⟩
  | .Mark12 => ⟨.Turret, .Gun, 0, false, 7.34, 3.06⟩
  | .Mark12X2 => ⟨.Turret, .Gun, 0, false, 7.6, 4.39375⟩
  | .Mark49 => ⟨.Turret, .Sam, 0, false, 3.02, 2.00547⟩
  | .Mark51 => ⟨.Turret, .Gun, 0, false, 11.45, 6.35⟩
  | .Mark7 => ⟨.Turret, .Gun, 0, false, 30.05, 15.26⟩
  | .MarkBViii => ⟨.Turret, .Gun, 0, false, 18.15, 8.1533⟩
  | .Ogon => ⟨.Turret, .Rocket, 0, false, 2.6, 2.6⟩
  | .OtoMelara76Mm => ⟨.Turret, .Gun, 0, false, 7.3, 3.0796876⟩
  | .RatepKomar => ⟨.Turret, .Missile, 0, false, 1.874, 2.05⟩
  | .Shtorm => ⟨.Turret, .Sam, 0, false, 5.8, 3.1265626⟩
  | .VickersMkH12In => ⟨.Turret, .Gun, 0, false, 16.65, 8.4551⟩
  | .Blaster => ⟨.Weapon, .Laser, 0, false, 2.0, 0.3⟩
  | .GreenBlaster => ⟨.Weapon, .Laser, 0, false, 2.0, 0.3⟩
  | .VBlaster => ⟨.Weapon, .Laser, 0, false, 2.0, 0.3⟩
  | .VProjector => ⟨.Weapon, .Shell, 0, false, 25.0, 0.0⟩
  | .VMissiles => ⟨.Weapon, .Missile, 0, false, 5.0, 6.0⟩
  | ._30X130MmR => ⟨.Weapon, .Shell, 0, false, 0.130, 0.03⟩
  | ._30X165MmR => ⟨.Weapon, .Shell, 0, false, 0.165, 0.03⟩
  | ._762X54MmR => ⟨.Weapon, .Shell, 0, false, 0.762, 0.05372⟩
  | ._200X1070MmR => ⟨.Weapon, .Shell, 0, false, 1.07, 0.2⟩
  | ._127X680MmR => ⟨.Weapon, .Shell, 0, false, 0.68, 0.127⟩
  | ._130X720MmR => ⟨.Weapon, .Shell, 0, false, 0.72, 0.13⟩
  | ._75X667MmR => ⟨.Weapon, .TankShell, 0, false, 0.667766, 0.075⟩
  | ._120X570MmR => ⟨.Weapon, .TankShell, 0, false, 0.570, 0.120⟩
  | ._25X129MmR => ⟨.Weapon, .Shell, 0, false, 0.1295, 0.0254⟩
  | ._300X1400MmR => ⟨.Weapon, .Shell, 0, false, 1.4, 0.3⟩
  | ._380X1700MmR => ⟨.Weapon, .Shell, 0, false, 1.7, 0.38⟩
  | ._458X1980MmR => ⟨.Weapon, .Shell, 0, false, 1.98, 0.458⟩
  | ._57X441MmR => ⟨.Weapon, .Shell, 0, false, 0.441, 0.057⟩
  | ._76X636MmR => ⟨.Weapon, .Shell, 0, false, 0.636, 0.076⟩
  | ._82R => ⟨.Weapon, .Torpedo, 4, false, 3.275, 0.4605⟩
  | .Asroc => ⟨.Weapon, .RocketTorpedo, 5, false, 4.5, 0.80859⟩
  | .Barak8 => ⟨.Weapon, .Sam, 4, false, 4.5, 0.703⟩
  | .Pl12 => ⟨.Weapon, .Sam, 11, false, 2.5, 0.5⟩
  | .BrahMos => ⟨.Weapon, .Missile, 5, false, 8.4, 0.9515625⟩
  | .Hellfire => ⟨.Weapon, .Missile, 7, false, 1.6, 0.18⟩
  | .CannonBall => ⟨.Weapon, .Shell, 0, false, 0.091, 0.091⟩
  | .Depositor => ⟨.Weapon, .Depositor, 0, false, 21.9, 5.1328⟩
  | .Shovel => ⟨.Weapon, .Shovel, 0, false, 21.9, 5.1328⟩
  | .Essm => ⟨.Weapon, .Sam, 4, false, 3.66, 0.4575⟩
  | .Exocet => ⟨.Weapon, .Missile, 5, false, 6, 0.9375⟩
  | .Harpoon => ⟨.Weapon, .Missile, 4, false, 3.8, 0.59375⟩
  | .Hq9 => ⟨.Weapon, .Sam, 4, false, 6.8, 0.9562⟩
  | .Igla => ⟨.Weapon, .Sam, 4, false, 1.574, 0.1599⟩
  | .Kalibr => ⟨.Weapon, .Missile, 4, false, 8.1, 4.11328⟩
  | .Lrlap => ⟨.Weapon, .Shell, 0, false, 2.3, 0.2875⟩
  | .Magic => ⟨.Weapon, .Sam, 5, false, 2.72, 0.5⟩
  | .Mark18 => ⟨.Weapon, .Torpedo, 1, false, 6.2, 0.533⟩
  | .Mark48 => ⟨.Weapon, .Torpedo, 4, false, 5.8, 0.533⟩
  | .Mark54 => ⟨.Weapon, .Torpedo, 4, false, 2.72, 0.324⟩
  | .Yu7 => ⟨.Weapon, .Torpedo, 7, false, 2.72, 0.324⟩
  | .Mark8 => ⟨.Weapon, .Shell, 0, false, 1.626, 0.406⟩
  | .Mark9 => ⟨.Weapon, .DepthCharge, 1, false, 0.448056, 0.701675⟩
  | .Mistral => ⟨.Weapon, .Sam, 6, false, 1.86, 0.1816⟩
  | .Nsm => ⟨.Weapon, .Missile, 5, false, 3.95, 1.049⟩
  | .Of45 => ⟨.Weapon, .Rocket, 2, false, 1.125, 0.29883⟩
  | .RP3 => ⟨.Weapon, .Rocket, 7, false, 1.4, 0.08⟩
  | .P15 => ⟨.Weapon, .Missile, 3, false, 5.8, 2.084375⟩
  | .P700 => ⟨.Weapon, .Missile, 4, false, 10, 2.96875⟩
  | .Rbs15 => ⟨.Weapon, .Missile, 3, false, 4.33, 1.2516⟩
  | .Rim116 => ⟨.Weapon, .Sam, 4, false, 2.79, 0.3052⟩
  | .Rpk6 => ⟨.Weapon, .RocketTorpedo, 6, false, 6.5, 0.533⟩
  | .S300 => ⟨.Weapon, .Sam, 5, false, 6.6, 1.03125⟩
  | .Set65 => ⟨.Weapon, .Torpedo, 3, false, 7.9, 0.533⟩
  | .Tomahawk => ⟨.Weapon, .Missile, 5, false, 5.56, 2.60625⟩
  | .Torped45 => ⟨.Weapon, .Torpedo, 4, false, 2.85, 0.4⟩
  | .Type53 => ⟨.Weapon, .Torpedo, 1, false, 7.2, 0.533⟩
  | .V611 => ⟨.Weapon, .Sam, 4, false, 6.15, 1.3453125⟩
  | .Vt1 => ⟨.Weapon, .Sam, 5, false, 2.35, 0.34⟩
  | .Hq10SAM => ⟨.Weapon, .Sam, 5, false, 2.0, 0.12⟩
  | .Ls6 => ⟨.Weapon, .GlideBomb, 10, false, 2.14, 1.28⟩
  | .Wz0839 => ⟨.Weapon, .Mine, 3, false, 2.0, 2.6⟩
  | .Type96Bomb => ⟨.Weapon, .Mine, 3, false, 1.0, 1.5⟩
  | .Mk82 => ⟨.Weapon, .Mine, 10, false, 2.22, 0.273⟩
  | .Yj18 => ⟨.Weapon, .Missile, 5, false, 8.1, 4.11328⟩

def EntityType.name : EntityType -> String
  | .Abrams => "Abrams"
  | .Avenger => "Avenger"
  | .J15 => "J15"
  | .E4N => "E4N"
  | .TieFighter => "TieFighter"
  | .Harbin => "Harbin"
  | .Ka25 => "Ka25"
  | .Kingfisher => "Kingfisher"
  | .Seahawk => "Seahawk"
  | .Type96 => "Type96"
  | .SuperEtendard => "SuperEtendard"
  | .SuperFrelon => "SuperFrelon"
  | .Z18 => "Z18"
  | .Akula => "Akula"
  | .Apache => "Apache"
  | .ArleighBurke => "ArleighBurke"
  | .Bismarck => "Bismarck"
  | .Buyan => "Buyan"
  | .B2 => "B2"
  | .Clemenceau => "Clemenceau"
  | .Kaga => "Kaga"
  | .Liaoning => "Liaoning"
  | .Chinook => "Chinook"
  | .Catalina => "Catalina"
  | .Spitfire => "Spitfire"
  | .J20 => "J20"
  | .F35 => "F35"
  | .Dreadnought => "Dreadnought"
  | .Dredger => "Dredger"
  | .Drone => "Drone"
  | .Espana => "Espana"
  | .Ekranoplan => "Ekranoplan"
  | .Essex => "Essex"
  | .FairmileD => "FairmileD"
  | .Fletcher => "Fletcher"
  | .Freccia => "Freccia"
  | .Freedom => "Freedom"
  | .G5 => "G5"
  | .Golf => "Golf"
  | .Indiaman => "Indiaman"
  | .Iowa => "Iowa"
  | .Kirov => "Kirov"
  | .Kolkata => "Kolkata"
  | .Komar => "Komar"
  | .Leander => "Leander"
  | .Lublin => "Lublin"
  | .Momi => "Momi"
  | .Montana => "Montana"
  | .Moskva => "Moskva"
  | .Oberon => "Oberon"
  | .Ohio => "Ohio"
  | .Olympias => "Olympias"
  | .Osa => "Osa"
  | .Pt34 => "Pt34"
  | .Seawolf => "Seawolf"
  | .Skipjack => "Skipjack"
  | .Skjold => "Skjold"
  | .Sherman => "Sherman"
  | .StarDestroyer => "StarDestroyer"
  | .Tanker => "Tanker"
  | .TerryFox => "TerryFox"
  | .Town => "Town"
  | .Type055 => "Type055"
  | .TypeViic => "TypeViic"
  | .Ticonderoga => "Ticonderoga"
  | .Titanic => "Titanic"
  | .Uap => "Uap"
  | .Vindicator => "Vindicator"
  | .Visby => "Visby"
  | .Virginia => "Virginia"
  | .Xwing => "Xwing"
  | .Yamato => "Yamato"
  | .Yasen => "Yasen"
  | .Zubr => "Zubr"
  | .Lst => "Lst"
  | .Zudredger => "Zudredger"
  | .Zumwalt => "Zumwalt"
  | .Barrel => "Barrel"
  | .Coin => "Coin"
  | .Crate => "Crate"
  | .Scrap => "Scrap"
  | .Brosok => "Brosok"
  | .Mk70 => "Mk70"
  | .Mk3 => "Mk3"
  | .Moskit => "Moskit"
  | .Jagm => "Jagm"
  | .Acacia => "Acacia"
  | .AverageTree => "AverageTree"
  | .Palm => "Palm"
  | .Hq => "Hq"
  | .OilPlatform => "OilPlatform"
  | .SuperOilPlatform => "SuperOilPlatform"
  | .M230 => "M230"
  | .Type730 => "Type730"
  | .Turbolaser => "Turbolaser"
  | .ShermanTurret => "ShermanTurret"
  | .AbramsTurret => "AbramsTurret"
  | ._100Mm => "_100Mm"
  | ._200Mm => "_200Mm"
  | ._2M3M => "_2M3M"
  | ._38CmSkc34 => "_38CmSkc34"
  | ._45Type94 => "_45Type94"
  | ._6Pounder => "_6Pounder"
  | ._88CmSkc35 => "_88CmSkc35"
  | ._M1919 => "_M1919"
  | .A190 => "A190"
  | .Ak130 => "Ak130"
  | .Ansaldo => "Ansaldo"
  | .Bl6MkXxiii => "Bl6MkXxiii"
  | .Bl6MkXxiiiX3 => "Bl6MkXxiiiX3"
  | .Bofors57MmMk3 => "Bofors57MmMk3"
  | .Crotale => "Crotale"
  | .Hq10 => "Hq10"
  | .Hpj38 => "Hpj38"
  | .Mark12 => "Mark12"
  | .Mark12X2 => "Mark12X2"
  | .Mark49 => "Mark49"
  | .Mark51 => "Mark51"
  | .Mark7 => "Mark7"
  | .MarkBViii => "MarkBViii"
  | .Ogon => "Ogon"
  | .OtoMelara76Mm => "OtoMelara76Mm"
  | .RatepKomar => "RatepKomar"
  | .Shtorm => "Shtorm"
  | .VickersMkH12In => "VickersMkH12In"
  | .Blaster => "Blaster"
  | .GreenBlaster => "GreenBlaster"
  | .VBlaster => "VBlaster"
  | .VProjector => "VProjector"
  | .VMissiles => "VMissiles"
  | ._30X130MmR => "_30X130MmR"
  | ._30X165MmR => "_30X165MmR"
  | ._762X54MmR => "_762X54MmR"
  | ._200X1070MmR => "_200X1070MmR"
  | ._127X680MmR => "_127X680MmR"
  | ._130X720MmR => "_130X720MmR"
  | ._75X667MmR => "_75X667MmR"
  | ._120X570MmR => "_120X570MmR"
  | ._25X129MmR => "_25X129MmR"
  | ._300X1400MmR => "_300X1400MmR"
  | ._380X1700MmR => "_380X1700MmR"
  | ._458X1980MmR => "_458X1980MmR"
  | ._57X441MmR => "_57X441MmR"
  | ._76X636MmR => "_76X636MmR"
  | ._82R => "_82R"
  | .Asroc => "Asroc"
  | .Barak8 => "Barak8"
  | .Pl12 => "Pl12"
  | .BrahMos => "BrahMos"
  | .Hellfire => "Hellfire"
  | .CannonBall => "CannonBall"
  | .Depositor => "Depositor"
  | .Shovel => "Shovel"
  | .Essm => "Essm"
  | .Exocet => "Exocet"
  | .Harpoon => "Harpoon"
  | .Hq9 => "Hq9"
  | .Igla => "Igla"
  | .Kalibr => "Kalibr"
  | .Lrlap => "Lrlap"
  | .Magic => "Magic"
  | .Mark18 => "Mark18"
  | .Mark48 => "Mark48"
  | .Mark54 => "Mark54"
  | .Yu7 => "Yu7"
  | .Mark8 => "Mark8"
  | .Mark9 => "Mark9"
  | .Mistral => "Mistral"
  | .Nsm => "Nsm"
  | .Of45 => "Of45"
  | .RP3 => "RP3"
  | .P15 => "P15"
  | .P700 => "P700"
  | .Rbs15 => "Rbs15"
  | .Rim116 => "Rim116"
  | .Rpk6 => "Rpk6"
  | .S300 => "S300"
  | .Set65 => "Set65"
  | .Tomahawk => "Tomahawk"
  | .Torped45 => "Torped45"
  | .Type53 => "Type53"
  | .V611 => "V611"
  | .Vt1 => "Vt1"
  | .Hq10SAM => "Hq10SAM"
  | .Ls6 => "Ls6"
  | .Wz0839 => "Wz0839"
  | .Type96Bomb => "Type96Bomb"
  | .Mk82 => "Mk82"
  | .Yj18 => "Yj18"

def EntityType.ordinal : EntityType -> Nat
  | .Abrams => 0
  | .Avenger => 1
  | .J15 => 2
  | .E4N => 3
  | .TieFighter => 4
  | .Harbin => 5
  | .Ka25 => 6
  | .Kingfisher => 7
  | .Seahawk => 8
  | .Type96 => 9
  | .SuperEtendard => 10
  | .SuperFrelon => 11
  | .Z18 => 12
  | .Akula => 13
  | .Apache => 14
  | .ArleighBurke => 15
  | .Bismarck => 16
  | .Buyan => 17
  | .B2 => 18
  | .Clemenceau => 19
  | .Kaga => 20
  | .Liaoning => 21
  | .Chinook => 22
  | .Catalina => 23
  | .Spitfire => 24
  | .J20 => 25
  | .F35 => 26
  | .Dreadnought => 27
  | .Dredger => 28
  | .Drone => 29
  | .Espana => 30
  | .Ekranoplan => 31
  | .Essex => 32
  | .FairmileD => 33
  | .Fletcher => 34
  | .Freccia => 35
  | .Freedom => 36
  | .G5 => 37
  | .Golf => 38
  | .Indiaman => 39
  | .Iowa => 40
  | .Kirov => 41
  | .Kolkata => 42
  | .Komar => 43
  | .Leander => 44
  | .Lublin => 45
  | .Momi => 46
  | .Montana => 47
  | .Moskva => 48
  | .Oberon => 49
  | .Ohio => 50
  | .Olympias => 51
  | .Osa => 52
  | .Pt34 => 53
  | .Seawolf => 54
  | .Skipjack => 55
  | .Skjold => 56
  | .Sherman => 57
  | .StarDestroyer => 58
  | .Tanker => 59
  | .TerryFox => 60
  | .Town => 61
  | .Type055 => 62
  | .TypeViic => 63
  | .Ticonderoga => 64
  | .Titanic => 65
  | .Uap => 66
  | .Vindicator => 67
  | .Visby => 68
  | .Virginia => 69
  | .Xwing => 70
  | .Yamato => 71
  | .Yasen => 72
  | .Zubr => 73
  | .Lst => 74
  | .Zudredger => 75
  | .Zumwalt => 76
  | .Barrel => 77
  | .Coin => 78
  | .Crate => 79
  | .Scrap => 80
  | .Brosok => 81
  | .Mk70 => 82
  | .Mk3 => 83
  | .Moskit => 84
  | .Jagm => 85
  | .Acacia => 86
  | .AverageTree => 87
  | .Palm => 88
  | .Hq => 89
  | .OilPlatform => 90
  | .SuperOilPlatform => 91
  | .M230 => 92
  | .Type730 => 93
  | .Turbolaser => 94
  | .ShermanTurret => 95
  | .AbramsTurret => 96
  | ._100Mm => 97
  | ._200Mm => 98
  | ._2M3M => 99
  | ._38CmSkc34 => 100
  | ._45Type94 => 101
  | ._6Pounder => 102
  | ._88CmSkc35 => 103
  | ._M1919 => 104
  | .A190 => 105
  | .Ak130 => 106
  | .Ansaldo => 107
  | .Bl6MkXxiii => 108
  | .Bl6MkXxiiiX3 => 109
  | .Bofors57MmMk3 => 110
  | .Crotale => 111
  | .Hq10 => 112
  | .Hpj38 => 113
  | .Mark12 => 114
  | .Mark12X2 => 115
  | .Mark49 => 116
  | .Mark51 => 117
  | .Mark7 => 118
  | .MarkBViii => 119
  | .Ogon => 120
  | .OtoMelara76Mm => 121
  | .RatepKomar => 122
  | .Shtorm => 123
  | .VickersMkH12In => 124
  | .Blaster => 125
  | .GreenBlaster => 126
  | .VBlaster => 127
  | .VProjector => 128
  | .VMissiles => 129
  | ._30X130MmR => 130
  | ._30X165MmR => 131
  | ._762X54MmR => 132
  | ._200X1070MmR => 133
  | ._127X680MmR => 134
  | ._130X720MmR => 135
  | ._75X667MmR => 136
  | ._120X570MmR => 137
  | ._25X129MmR => 138
  | ._300X1400MmR => 139
  | ._380X1700MmR => 140
  | ._458X1980MmR => 141
  | ._57X441MmR => 142
  | ._76X636MmR => 143
  | ._82R => 144
  | .Asroc => 145
  | .Barak8 => 146
  | .Pl12 => 147
  | .BrahMos => 148
  | .Hellfire => 149
  | .CannonBall => 150
  | .Depositor => 151
  | .Shovel => 152
  | .Essm => 153
  | .Exocet => 154
  | .Harpoon => 155
  | .Hq9 => 156
  | .Igla => 157
  | .Kalibr => 158
  | .Lrlap => 159
  | .Magic => 160
  | .Mark18 => 161
  | .Mark48 => 162
  | .Mark54 => 163
  | .Yu7 => 164
  | .Mark8 => 165
  | .Mark9 => 166
  | .Mistral => 167
  | .Nsm => 168
  | .Of45 => 169
  | .RP3 => 170
  | .P15 => 171
  | .P700 => 172
  | .Rbs15 => 173
  | .Rim116 => 174
  | .Rpk6 => 175
  | .S300 => 176
  | .Set65 => 177
  | .Tomahawk => 178
  | .Torped45 => 179
  | .Type53 => 180
  | .V611 => 181
  | .Vt1 => 182
  | .Hq10SAM => 183
  | .Ls6 => 184
  | .Wz0839 => 185
  | .Type96Bomb => 186
  | .Mk82 => 187
  | .Yj18 => 188

/-- The number of EntityType variants. -/
def EntityType.count : Nat := 189

/-- Inverse of the declaration-order ordinal, used to enumerate the
variants; written as a balanced comparison tree so that evaluating it at a
literal takes logarithmically many comparisons. Inputs past the last
ordinal map to Abrams. -/
def EntityType.ofIdx (n : Nat) : EntityType :=
  if n < 94 then
    if n < 47 then
      if n < 23 then
        if n < 11 then
          if n < 5 then
            if n < 2 then
              if n < 1 then
                EntityType.Abrams
              else
                EntityType.Avenger
            else
              if n < 3 then
                EntityType.J15
              else
                if n < 4 then
                  EntityType.E4N
                else
                  EntityType.TieFighter
          else
            if n < 8 then
              if n < 6 then
                EntityType.Harbin
              else
                if n < 7 then
                  EntityType.Ka25
                else
                  EntityType.Kingfisher
            else
              if n < 9 then
                EntityType.Seahawk
              else
                if n < 10 then
                  EntityType.Type96
                else
                  EntityType.SuperEtendard
        else
          if n < 17 then
            if n < 14 then
              if n < 12 then
                EntityType.SuperFrelon
              else
                if n < 13 then
                  EntityType.Z18
                else
                  EntityType.Akula
            else
              if n < 15 then
                EntityType.Apache
              else
                if n < 16 then
                  EntityType.ArleighBurke
                else
                  EntityType.Bismarck
          else
            if n < 20 then
              if n < 18 then
                EntityType.Buyan
              else
                if n < 19 then
                  EntityType.B2
                else
                  EntityType.Clemenceau
            else
              if n < 21 then
                EntityType.Kaga
              else
                if n < 22 then
                  EntityType.Liaoning
                else
                  EntityType.Chinook
      else
        if n < 35 then
          if n < 29 then
            if n < 26 then
              if n < 24 then
                EntityType.Catalina
              else
                if n < 25 then
                  EntityType.Spitfire
                else
                  EntityType.J20
            else
              if n < 27 then
                EntityType.F35
              else
                if n < 28 then
                  EntityType.Dreadnought
                else
                  EntityType.Dredger
          else
            if n < 32 then
              if n < 30 then
                EntityType.Drone
              else
                if n < 31 then
                  EntityType.Espana
                else
                  EntityType.Ekranoplan
            else
              if n < 33 then
                EntityType.Essex
              else
                if n < 34 then
                  EntityType.FairmileD
                else
                  EntityType.Fletcher
        else
          if n < 41 then
            if n < 38 then
              if n < 36 then
                EntityType.Freccia
              else
                if n < 37 then
                  EntityType.Freedom
                else
                  EntityType.G5
            else
              if n < 39 then
                EntityType.Golf
              else
                if n < 40 then
                  EntityType.Indiaman
                else
                  EntityType.Iowa
          else
            if n < 44 then
              if n < 42 then
                EntityType.Kirov
              else
                if n < 43 then
                  EntityType.Kolkata
                else
                  EntityType.Komar
            else
              if n < 45 then
                EntityType.Leander
              else
                if n < 46 then
                  EntityType.Lublin
                else
                  EntityType.Momi
    else
      if n < 70 then
        if n < 58 then
          if n < 52 then
            if n < 49 then
              if n < 48 then
                EntityType.Montana
              else
                EntityType.Moskva
            else
              if n < 50 then
                EntityType.Oberon
              else
                if n < 51 then
                  EntityType.Ohio
                else
                  EntityType.Olympias
          else
            if n < 55 then
              if n < 53 then
                EntityType.Osa
              else
                if n < 54 then
                  EntityType.Pt34
                else
                  EntityType.Seawolf
            else
              if n < 56 then
                EntityType.Skipjack
              else
                if n < 57 then
                  EntityType.Skjold
                else
                  EntityType.Sherman
        else
          if n < 64 then
            if n < 61 then
              if n < 59 then
                EntityType.StarDestroyer
              else
                if n < 60 then
                  EntityType.Tanker
                else
                  EntityType.TerryFox
            else
              if n < 62 then
                EntityType.Town
              else
                if n < 63 then
                  EntityType.Type055
                else
                  EntityType.TypeViic
          else
            if n < 67 then
              if n < 65 then
                EntityType.Ticonderoga
              else
                if n < 66 then
                  EntityType.Titanic
                else
                  EntityType.Uap
            else
              if n < 68 then
                EntityType.Vindicator
              else
                if n < 69 then
                  EntityType.Visby
                else
                  EntityType.Virginia
      else
        if n < 82 then
          if n < 76 then
            if n < 73 then
              if n < 71 then
                EntityType.Xwing
              else
                if n < 72 then
                  EntityType.Yamato
                else
                  EntityType.Yasen
            else
              if n < 74 then
                EntityType.Zubr
              else
                if n < 75 then
                  EntityType.Lst
                else
                  EntityType.Zudredger
          else
            if n < 79 then
              if n < 77 then
                EntityType.Zumwalt
              else
                if n < 78 then
                  EntityType.Barrel
                else
                  EntityType.Coin
            else
              if n < 80 then
                EntityType.Crate
              else
                if n < 81 then
                  EntityType.Scrap
                else
                  EntityType.Brosok
        else
          if n < 88 then
            if n < 85 then
              if n < 83 then
                EntityType.Mk70
              else
                if n < 84 then
                  EntityType.Mk3
                else
                  EntityType.Moskit
            else
              if n < 86 then
                EntityType.Jagm
              else
                if n < 87 then
                  EntityType.Acacia
                else
                  EntityType.AverageTree
          else
            if n < 91 then
              if n < 89 then
                EntityType.Palm
              else
                if n < 90 then
                  EntityType.Hq
                else
                  EntityType.OilPlatform
            else
              if n < 92 then
                EntityType.SuperOilPlatform
              else
                if n < 93 then
                  EntityType.M230
                else
                  EntityType.Type730
  else
    if n < 141 then
      if n < 117 then
        if n < 105 then
          if n < 99 then
            if n < 96 then
              if n < 95 then
                EntityType.Turbolaser
              else
                EntityType.ShermanTurret
            else
              if n < 97 then
                EntityType.AbramsTurret
              else
                if n < 98 then
                  EntityType._100Mm
                else
                  EntityType._200Mm
          else
            if n < 102 then
              if n < 100 then
                EntityType._2M3M
              else
                if n < 101 then
                  EntityType._38CmSkc34
                else
                  EntityType._45Type94
            else
              if n < 103 then
                EntityType._6Pounder
              else
                if n < 104 then
                  EntityType._88CmSkc35
                else
                  EntityType._M1919
        else
          if n < 111 then
            if n < 108 then
              if n < 106 then
                EntityType.A190
              else
                if n < 107 then
                  EntityType.Ak130
                else
                  EntityType.Ansaldo
            else
              if n < 109 then
                EntityType.Bl6MkXxiii
              else
                if n < 110 then
                  EntityType.Bl6MkXxiiiX3
                else
                  EntityType.Bofors57MmMk3
          else
            if n < 114 then
              if n < 112 then
                EntityType.Crotale
              else
                if n < 113 then
                  EntityType.Hq10
                else
                  EntityType.Hpj38
            else
              if n < 115 then
                EntityType.Mark12
              else
                if n < 116 then
                  EntityType.Mark12X2
                else
                  EntityType.Mark49
      else
        if n < 129 then
          if n < 123 then
            if n < 120 then
              if n < 118 then
                EntityType.Mark51
              else
                if n < 119 then
                  EntityType.Mark7
                else
                  EntityType.MarkBViii
            else
              if n < 121 then
                EntityType.Ogon
              else
                if n < 122 then
                  EntityType.OtoMelara76Mm
                else
                  EntityType.RatepKomar
          else
            if n < 126 then
              if n < 124 then
                EntityType.Shtorm
              else
                if n < 125 then
                  EntityType.VickersMkH12In
                else
                  EntityType.Blaster
            else
              if n < 127 then
                EntityType.GreenBlaster
              else
                if n < 128 then
                  EntityType.VBlaster
                else
                  EntityType.VProjector
        else
          if n < 135 then
            if n < 132 then
              if n < 130 then
                EntityType.VMissiles
              else
                if n < 131 then
                  EntityType._30X130MmR
                else
                  EntityType._30X165MmR
            else
              if n < 133 then
                EntityType._762X54MmR
              else
                if n < 134 then
                  EntityType._200X1070MmR
                else
                  EntityType._127X680MmR
          else
            if n < 138 then
              if n < 136 then
                EntityType._130X720MmR
              else
                if n < 137 then
                  EntityType._75X667MmR
                else
                  EntityType._120X570MmR
            else
              if n < 139 then
                EntityType._25X129MmR
              else
                if n < 140 then
                  EntityType._300X1400MmR
                else
                  EntityType._380X1700MmR
    else
      if n < 165 then
        if n < 153 then
          if n < 147 then
            if n < 144 then
              if n < 142 then
                EntityType._458X1980MmR
              else
                if n < 143 then
                  EntityType._57X441MmR
                else
                  EntityType._76X636MmR
            else
              if n < 145 then
                EntityType._82R
              else
                if n < 146 then
                  EntityType.Asroc
                else
                  EntityType.Barak8
          else
            if n < 150 then
              if n < 148 then
                EntityType.Pl12
              else
                if n < 149 then
                  EntityType.BrahMos
                else
                  EntityType.Hellfire
            else
              if n < 151 then
                EntityType.CannonBall
              else
                if n < 152 then
                  EntityType.Depositor
                else
                  EntityType.Shovel
        else
          if n < 159 then
            if n < 156 then
              if n < 154 then
                EntityType.Essm
              else
                if n < 155 then
                  EntityType.Exocet
                else
                  EntityType.Harpoon
            else
              if n < 157 then
                EntityType.Hq9
              else
                if n < 158 then
                  EntityType.Igla
                else
                  EntityType.Kalibr
          else
            if n < 162 then
              if n < 160 then
                EntityType.Lrlap
              else
                if n < 161 then
                  EntityType.Magic
                else
                  EntityType.Mark18
            else
              if n < 163 then
                EntityType.Mark48
              else
                if n < 164 then
                  EntityType.Mark54
                else
                  EntityType.Yu7
      else
        if n < 177 then
          if n < 171 then
            if n < 168 then
              if n < 166 then
                EntityType.Mark8
              else
                if n < 167 then
                  EntityType.Mark9
                else
                  EntityType.Mistral
            else
              if n < 169 then
                EntityType.Nsm
              else
                if n < 170 then
                  EntityType.Of45
                else
                  EntityType.RP3
          else
            if n < 174 then
              if n < 172 then
                EntityType.P15
              else
                if n < 173 then
                  EntityType.P700
                else
                  EntityType.Rbs15
            else
              if n < 175 then
                EntityType.Rim116
              else
                if n < 176 then
                  EntityType.Rpk6
                else
                  EntityType.S300
        else
          if n < 183 then
            if n < 180 then
              if n < 178 then
                EntityType.Set65
              else
                if n < 179 then
                  EntityType.Tomahawk
                else
                  EntityType.Torped45
            else
              if n < 181 then
                EntityType.Type53
              else
                if n < 182 then
                  EntityType.V611
                else
                  EntityType.Vt1
          else
            if n < 186 then
              if n < 184 then
                EntityType.Hq10SAM
              else
                if n < 185 then
                  EntityType.Ls6
                else
                  EntityType.Wz0839
            else
              if n < 187 then
                EntityType.Type96Bomb
              else
                if n < 188 then
                  EntityType.Mk82
                else
                  EntityType.Yj18

/-- Every variant once, in declaration order; models EntityType::iter. -/
def EntityType.all : List EntityType :=
  (List.range EntityType.count).map EntityType.ofIdx

/-- Kind of an entity type, from the entity attribute in the catalog. -/
def kindOf (t : EntityType) : EntityKind := (catalog t).kind

/-- Sub-kind of an entity type, from the entity attribute in the catalog. -/
def subKindOf (t : EntityType) : EntitySubKind := (catalog t).subKind

/-- Level of an entity type, from the entity attribute in the catalog. -/
def levelOf (t : EntityType) : Nat := (catalog t).level

/-- NPC flag of an entity type (no variant in the catalog sets it). -/
def npcOf (t : EntityType) : Bool := (catalog t).npc

/-- Length of an entity type in meters, from the size attribute. -/
def lengthQ (t : EntityType) : Rat := (catalog t).length

/-- Width of an entity type in meters, from the size attribute. -/
def widthQ (t : EntityType) : Rat := (catalog t).width

/-- Modelled from the spec: level_to_score lives in src/common/src/util.rs,
which is not among the available sources; the spec constrains it only to be
a monotone function from level to score. Theorems that depend on it are
stated for an arbitrary function lts and this concrete strictly monotone
model is used to instantiate witnesses. -/
def levelToScore (level : Nat) : Nat := level * level * 100

/-- EntityType::can_spawn_as from src/common/src/entity/_type.rs lines 31-35,
with the score-from-level function passed as the parameter lts. -/
def canSpawnAs (lts : Nat → Nat) (t : EntityType) (score : Nat)
    (bot moderator : Bool) : Bool :=
  if (bot || !moderator) && (subKindOf t == EntitySubKind.Drone) then false
  else
    (kindOf t == EntityKind.Boat) && decide (lts (levelOf t) ≤ score)
      && (bot || !npcOf t)

/-- EntityType::can_upgrade_to from src/common/src/entity/_type.rs lines
39-53, with the score-from-level function passed as the parameter lts. The
guard clauses are evaluated in source order; the first match wins. -/
def canUpgradeTo (lts : Nat → Nat) (self upgrade : EntityType) (score : Nat)
    (bot moderator : Bool) : Bool :=
  if moderator && (kindOf upgrade == kindOf self) then true
  else if (subKindOf upgrade == EntitySubKind.Drone) && !moderator then false
  else if bot && (upgrade == EntityType.Chinook) then false
  else if bot && (upgrade == EntityType.Lst) then false
  else if (self == EntityType.Lst) && (upgrade == EntityType.Sherman) then
    decide (score < lts 6) && decide (lts 4 ≤ score)
  else if (subKindOf self == EntitySubKind.Tank)
      && (subKindOf upgrade == EntitySubKind.LandingShip) then true
  else if (subKindOf self == EntitySubKind.LandingShip)
      && (subKindOf upgrade == EntitySubKind.Tank) then true
  else
    decide (levelOf self < levelOf upgrade) && (kindOf upgrade == kindOf self)
      && decide (lts (levelOf upgrade) ≤ score) && (bot || !npcOf upgrade)

/-- Square of hypot(length, width) for an entity type; hypot itself is the
nonnegative square root of this quantity. -/
def hypotSq (t : EntityType) : Rat := lengthQ t * lengthQ t + widthQ t * widthQ t

/-- Square of the derived radius hypot(length, width) / 2 of an entity type. -/
def radiusSq (t : EntityType) : Rat := hypotSq t / 4

/-- Square of the catalog constant EntityData::MAX_RADIUS as the generator in
src/macros/src/lib.rs lines 48-56 computes it: the fold of max over
length.hypot(width) of every catalog entry, starting from 0. Tracked through
its square, which commutes with the fold because squaring is monotone on
nonnegatives. -/
def genMaxRadiusSq : Rat :=
  EntityType.all.foldl (fun m t => max m (hypotSq t)) 0

/-- Square of the value the specification claims for MAX_RADIUS: the maximum
over every entity type of the derived radius hypot(length, width) / 2. -/
def specMaxRadiusSq : Rat :=
  EntityType.all.foldl (fun m t => max m (radiusSq t)) 0

/-- Modelled from the spec: the wire name of a variant. The as_str table is
generated by the EntityTypeData derive macro, which is not among the
available sources; per spec section 6 the textual form is the identifier
string of the catalog variant, which is what this table returns. -/
def EntityType.wireName (t : EntityType) : String := t.name

/-- Modelled from the spec: from_str, the inverse lookup of the name table
used by deserialization of the human-readable form. -/
def fromName : String → Option EntityType
  | "Abrams" => some .Abrams
  | "Avenger" => some .Avenger
  | "J15" => some .J15
  | "E4N" => some .E4N
  | "TieFighter" => some .TieFighter
  | "Harbin" => some .Harbin
  | "Ka25" => some .Ka25
  | "Kingfisher" => some .Kingfisher
  | "Seahawk" => some .Seahawk
  | "Type96" => some .Type96
  | "SuperEtendard" => some .SuperEtendard
  | "SuperFrelon" => some .SuperFrelon
  | "Z18" => some .Z18
  | "Akula" => some .Akula
  | "Apache" => some .Apache
  | "ArleighBurke" => some .ArleighBurke
  | "Bismarck" => some .Bismarck
  | "Buyan" => some .Buyan
  | "B2" => some .B2
  | "Clemenceau" => some .Clemenceau
  | "Kaga" => some .Kaga
  | "Liaoning" => some .Liaoning
  | "Chinook" => some .Chinook
  | "Catalina" => some .Catalina
  | "Spitfire" => some .Spitfire
  | "J20" => some .J20
  | "F35" => some .F35
  | "Dreadnought" => some .Dreadnought
  | "Dredger" => some .Dredger
  | "Drone" => some .Drone
  | "Espana" => some .Espana
  | "Ekranoplan" => some .Ekranoplan
  | "Essex" => some .Essex
  | "FairmileD" => some .FairmileD
  | "Fletcher" => some .Fletcher
  | "Freccia" => some .Freccia
  | "Freedom" => some .Freedom
  | "G5" => some .G5
  | "Golf" => some .Golf
  | "Indiaman" => some .Indiaman
  | "Iowa" => some .Iowa
  | "Kirov" => some .Kirov
  | "Kolkata" => some .Kolkata
  | "Komar" => some .Komar
  | "Leander" => some .Leander
  | "Lublin" => some .Lublin
  | "Momi" => some .Momi
  | "Montana" => some .Montana
  | "Moskva" => some .Moskva
  | "Oberon" => some .Oberon
  | "Ohio" => some .Ohio
  | "Olympias" => some .Olympias
  | "Osa" => some .Osa
  | "Pt34" => some .Pt34
  | "Seawolf" => some .Seawolf
  | "Skipjack" => some .Skipjack
  | "Skjold" => some .Skjold
  | "Sherman" => some .Sherman
  | "StarDestroyer" => some .StarDestroyer
  | "Tanker" => some .Tanker
  | "TerryFox" => some .TerryFox
  | "Town" => some .Town
  | "Type055" => some .Type055
  | "TypeViic" => some .TypeViic
  | "Ticonderoga" => some .Ticonderoga
  | "Titanic" => some .Titanic
  | "Uap" => some .Uap
  | "Vindicator" => some .Vindicator
  | "Visby" => some .Visby
  | "Virginia" => some .Virginia
  | "Xwing" => some .Xwing
  | "Yamato" => some .Yamato
  | "Yasen" => some .Yasen
  | "Zubr" => some .Zubr
  | "Lst" => some .Lst
  | "Zudredger" => some .Zudredger
  | "Zumwalt" => some .Zumwalt
  | "Barrel" => some .Barrel
  | "Coin" => some .Coin
  | "Crate" => some .Crate
  | "Scrap" => some .Scrap
  | "Brosok" => some .Brosok
  | "Mk70" => some .Mk70
  | "Mk3" => some .Mk3
  | "Moskit" => some .Moskit
  | "Jagm" => some .Jagm
  | "Acacia" => some .Acacia
  | "AverageTree" => some .AverageTree
  | "Palm" => some .Palm
  | "Hq" => some .Hq
  | "OilPlatform" => some .OilPlatform
  | "SuperOilPlatform" => some .SuperOilPlatform
  | "M230" => some .M230
  | "Type730" => some .Type730
  | "Turbolaser" => some .Turbolaser
  | "ShermanTurret" => some .ShermanTurret
  | "AbramsTurret" => some .AbramsTurret
  | "_100Mm" => some ._100Mm
  | "_200Mm" => some ._200Mm
  | "_2M3M" => some ._2M3M
  | "_38CmSkc34" => some ._38CmSkc34
  | "_45Type94" => some ._45Type94
  | "_6Pounder" => some ._6Pounder
  | "_88CmSkc35" => some ._88CmSkc35
  | "_M1919" => some ._M1919
  | "A190" => some .A190
  | "Ak130" => some .Ak130
  | "Ansaldo" => some .Ansaldo
  | "Bl6MkXxiii" => some .Bl6MkXxiii
  | "Bl6MkXxiiiX3" => some .Bl6MkXxiiiX3
  | "Bofors57MmMk3" => some .Bofors57MmMk3
  | "Crotale" => some .Crotale
  | "Hq10" => some .Hq10
  | "Hpj38" => some .Hpj38
  | "Mark12" => some .Mark12
  | "Mark12X2" => some .Mark12X2
  | "Mark49" => some .Mark49
  | "Mark51" => some .Mark51
  | "Mark7" => some .Mark7
  | "MarkBViii" => some .MarkBViii
  | "Ogon" => some .Ogon
  | "OtoMelara76Mm" => some .OtoMelara76Mm
  | "RatepKomar" => some .RatepKomar
  | "Shtorm" => some .Shtorm
  | "VickersMkH12In" => some .VickersMkH12In
  | "Blaster" => some .Blaster
  | "GreenBlaster" => some .GreenBlaster
  | "VBlaster" => some .VBlaster
  | "VProjector" => some .VProjector
  | "VMissiles" => some .VMissiles
  | "_30X130MmR" => some ._30X130MmR
  | "_30X165MmR" => some ._30X165MmR
  | "_762X54MmR" => some ._762X54MmR
  | "_200X1070MmR" => some ._200X1070MmR
  | "_127X680MmR" => some ._127X680MmR
  | "_130X720MmR" => some ._130X720MmR
  | "_75X667MmR" => some ._75X667MmR
  | "_120X570MmR" => some ._120X570MmR
  | "_25X129MmR" => some ._25X129MmR
  | "_300X1400MmR" => some ._300X1400MmR
  | "_380X1700MmR" => some ._380X1700MmR
  | "_458X1980MmR" => some ._458X1980MmR
  | "_57X441MmR" => some ._57X441MmR
  | "_76X636MmR" => some ._76X636MmR
  | "_82R" => some ._82R
  | "Asroc" => some .Asroc
  | "Barak8" => some .Barak8
  | "Pl12" => some .Pl12
  | "BrahMos" => some .BrahMos
  | "Hellfire" => some .Hellfire
  | "CannonBall" => some .CannonBall
  | "Depositor" => some .Depositor
  | "Shovel" => some .Shovel
  | "Essm" => some .Essm
  | "Exocet" => some .Exocet
  | "Harpoon" => some .Harpoon
  | "Hq9" => some .Hq9
  | "Igla" => some .Igla
  | "Kalibr" => some .Kalibr
  | "Lrlap" => some .Lrlap
  | "Magic" => some .Magic
  | "Mark18" => some .Mark18
  | "Mark48" => some .Mark48
  | "Mark54" => some .Mark54
  | "Yu7" => some .Yu7
  | "Mark8" => some .Mark8
  | "Mark9" => some .Mark9
  | "Mistral" => some .Mistral
  | "Nsm" => some .Nsm
  | "Of45" => some .Of45
  | "RP3" => some .RP3
  | "P15" => some .P15
  | "P700" => some .P700
  | "Rbs15" => some .Rbs15
  | "Rim116" => some .Rim116
  | "Rpk6" => some .Rpk6
  | "S300" => some .S300
  | "Set65" => some .Set65
  | "Tomahawk" => some .Tomahawk
  | "Torped45" => some .Torped45
  | "Type53" => some .Type53
  | "V611" => some .V611
  | "Vt1" => some .Vt1
  | "Hq10SAM" => some .Hq10SAM
  | "Ls6" => some .Ls6
  | "Wz0839" => some .Wz0839
  | "Type96Bomb" => some .Type96Bomb
  | "Mk82" => some .Mk82
  | "Yj18" => some .Yj18
  | _ => none

/-- Modelled from the spec: from_u8, the inverse lookup of the ordinal used
by deserialization of the binary form. The ordinal of a variant is its
declaration index, which repr(u8) assigns as the discriminant. -/
def fromOrdinal (n : Nat) : Option EntityType :=
  if n < EntityType.count then some (EntityType.ofIdx n) else none

/-! ### World spawn subsystem, from src/server/src/world_spawn.rs

The numeric type is the rationals. The Rust code computes in f32; every
constant appearing in the spawn code (6.0, 0.05, 0.95, 1.1, 0.85, 0.5,
1.0) is a short decimal, and the claims settled here concern comparisons
and control flow that are insensitive to f32 rounding. Square roots never
appear: the source itself compares squared lengths and squared distances,
which is mirrored exactly. -/

/-- The fields of the static EntityData record that the spawn code reads.
The radius field is the derived hypot(length, width) / 2 of the catalog,
an irrational number for the real entries, so the world model carries it
as an unconstrained rational parameter; land_based (is_land_based) and
the data table itself are produced by the EntityTypeData derive macro,
which is not among the available sources, and are therefore modelled from
the spec as explicit fields of the lookup function a world carries. -/
structure EntityDataM where
  kind : EntityKind
  level : Nat
  radius : Rat
  landBased : Bool
  lifespan : Rat

/-- A two dimensional vector with rational coordinates, modelling glam::Vec2. -/
structure Vec2 where
  x : Rat
  y : Rat
  deriving DecidableEq

instance : Add Vec2 := ⟨fun a b => ⟨a.x + b.x, a.y + b.y⟩⟩

/-- Squared euclidean norm, modelling Vec2::length_squared. -/
def Vec2.lengthSq (a : Vec2) : Rat := a.x * a.x + a.y * a.y

/-- Squared euclidean distance, modelling Vec2::distance_squared. -/
def Vec2.distanceSq (a b : Vec2) : Rat :=
  (a.x - b.x) * (a.x - b.x) + (a.y - b.y) * (a.y - b.y)

/-- A runtime entity: the fields of server Entity that the spawn code
touches (entity_type, transform, guidance, ticks, altitude). The id field
is omitted: it is assigned by the spatial index on insertion, which is a
collaborator outside the sources. -/
structure EntityM where
  entityType : EntityType
  position : Vec2
  direction : Rat
  velocity : Rat
  velocityTarget : Rat
  directionTarget : Rat
  ticks : Rat
  altitude : Rat
  deriving DecidableEq

/-- Modelled from the spec: common::terrain::SCALE, the grid cell side in
meters. Its numeric value is not in the available sources; no claim below
depends on the particular positive value chosen here. -/
def SCALE : Rat := 25

/-- Modelled from the spec: terrain is a grid with a land/water predicate
per square of side SCALE; a finite list of land cell coordinates. -/
structure Terrain where
  landCells : List (Int × Int)

/-- Modelled from the spec: land_in_square(center, side) is true iff some
land grid cell intersects the axis-aligned square of the given side
centered at center. Cell (i, j) covers [i*SCALE, (i+1)*SCALE] ×
[j*SCALE, (j+1)*SCALE]. -/
def Terrain.landInSquare (tr : Terrain) (center : Vec2) (side : Rat) : Bool :=
  tr.landCells.any fun c =>
    decide ((c.1 : Rat) * SCALE ≤ center.x + side / 2)
      && decide (center.x - side / 2 ≤ ((c.1 : Rat) + 1) * SCALE)
      && decide ((c.2 : Rat) * SCALE ≤ center.y + side / 2)
      && decide (center.y - side / 2 ≤ ((c.2 : Rat) + 1) * SCALE)

/-- The world state used by the spawn subsystem: radius, terrain, the
spatial index of entities (as a list), and the collaborator interfaces.
maxRadius models the catalog constant EntityData::MAX_RADIUS (an f32
whose exact value is an irrational square root, hence a field); dataOf
models the catalog lookup EntityType::data; targetCount models
World::target_count (ceiling of area times density per the spec; area is
pi times radius squared, irrational, hence a field); collidesWith and
collidesWithTerrain model the collision collaborators. -/
structure World where
  radius : Rat
  terrain : Terrain
  entities : List EntityM
  maxRadius : Rat
  dataOf : EntityType → EntityDataM
  targetCount : Rat → Nat
  collidesWith : EntityM → EntityM → Rat → Bool
  collidesWithTerrain : EntityM → Rat → Bool

/-- Spatial index radius query: all entities within r of center; models
entities.iter_radius. -/
def World.iterRadius (w : World) (center : Vec2) (r : Rat) : List EntityM :=
  w.entities.filter fun e => decide (Vec2.distanceSq center e.position ≤ r * r)

/-- Entity::is_boat: the entity data kind is Boat. -/
def World.isBoat (w : World) (e : EntityM) : Bool :=
  (w.dataOf e.entityType).kind == EntityKind.Boat

/-- The obstacle scan of the Decoy/Weapon short-circuit: some obstacle
entity within the collision radius collides with the candidate. -/
def World.obstacleCollision (w : World) (e : EntityM) (maxCollisionRadius : Rat) : Bool :=
  (w.iterRadius e.position maxCollisionRadius).any fun o =>
    ((w.dataOf o.entityType).kind == EntityKind.Obstacle) && w.collidesWith e o 0

/-- The terrain category check of can_spawn: land under the inflated
safety square differs from is_land_based (the source rejects when
land_in_square(position, (radius + SCALE) * 2 * threshold) differs from
data.is_land_based()). -/
def World.landCheckFails (w : World) (e : EntityM) (threshold : Rat) : Bool :=
  w.terrain.landInSquare e.position
      (((w.dataOf e.entityType).radius + SCALE) * 2 * threshold)
    != (w.dataOf e.entityType).landBased

/-- The entity proximity check of can_spawn: some non-collectible entity
within maxCollisionRadius * threshold sits within the safe distance,
which is the collision distance scaled by threshold for boat pairs whose
other member has level above 2, and by max(threshold * 0.5, 1) otherwise. -/
def World.proximityBlocked (w : World) (e : EntityM) (threshold : Rat) : Bool :=
  (w.iterRadius e.position
      (((w.dataOf e.entityType).radius + w.maxRadius) * threshold)).any fun o =>
    let odata := w.dataOf o.entityType
    !(odata.kind == EntityKind.Collectible)
      && (let collisionDistance := (w.dataOf e.entityType).radius + odata.radius
          let safeDistance := collisionDistance *
            (if w.isBoat e && w.isBoat o && decide (2 < odata.level)
              then threshold
              else max (threshold * 0.5) 1)
          decide (Vec2.distanceSq e.position o.position
            ≤ safeDistance * safeDistance))

/-- The body of World::can_spawn (src/server/src/world_spawn.rs lines
107-177), i.e. everything after the threshold assertion: outside-world
check, kind-specific short-circuits for Decoy/Weapon and
Collectible/Aircraft, then the terrain category check and the entity
proximity check above. -/
def World.canSpawnOk (w : World) (e : EntityM) (threshold : Rat) : Bool :=
  if Vec2.lengthSq e.position > w.radius * w.radius then false
  else
    match (w.dataOf e.entityType).kind with
    | EntityKind.Decoy | EntityKind.Weapon =>
      !(w.obstacleCollision e ((w.dataOf e.entityType).radius + w.maxRadius))
        && !w.collidesWithTerrain e 0
    | EntityKind.Collectible | EntityKind.Aircraft => !w.collidesWithTerrain e 0
    | _ =>
      if w.landCheckFails e threshold then false
      else !(w.proximityBlocked e threshold)

/-- World::can_spawn including the fatal assertion: the Rust function
panics when threshold < 1.0, modelled as none; otherwise it returns the
boolean of the checks above. -/
def World.canSpawn (w : World) (e : EntityM) (threshold : Rat) : Option Bool :=
  if threshold < 1 then none
  else some (w.canSpawnOk e threshold)

/-- Spatial index insertion (collaborator World::add): appends the entity;
no existing entity is touched. -/
def World.add (w : World) (e : EntityM) : World :=
  { w with entities := w.entities ++ [e] }

/-- World::try_spawn: insert iff can_spawn at threshold 1.0; returns
whether the entity was spawned together with the resulting world. -/
def World.trySpawn (w : World) (e : EntityM) : Bool × World :=
  if w.canSpawnOk e 1 then (true, w.add e) else (false, w)

/-- The retry loop of World::spawn_here_or_nearby. rng is the stream of
random draws: the i-th draw yields the gen_radius offset and the random
direction of attempt i (the model does not constrain the offset magnitude
by the current search radius, which the thread-local RNG guarantees in
the source; the radius and threshold state variables are updated exactly
as in the source). Returns the final entity together with the remaining
governor budget; a second component of 0 means the governor was
exhausted. -/
def World.spawnLoop (w : World) (rng : Nat → Vec2 × Rat) (center : Vec2)
    (e : EntityM) (radius threshold : Rat) (governor i : Nat) : EntityM × Nat :=
  if decide (e.position = center) || !w.canSpawnOk e threshold then
    let e2 := { e with position := center + (rng i).1, direction := (rng i).2 }
    let radius2 := min (radius * 1.1) (w.radius * 0.85)
    let threshold2 := 0.05 + threshold * 0.95
    if h : governor - 1 = 0 then (e2, 0)
    else w.spawnLoop rng center e2 radius2 threshold2 (governor - 1) (i + 1)
  else (e, governor)
termination_by governor
decreasing_by simp_wf; omega

/-- The observable outcome of spawn_here_or_nearby: the returned boolean,
whether the warn log line fired (exactly when the return value is false),
the resulting world, the governor budget left by the retry loop, and the
final candidate entity that was handed to try_spawn. -/
structure SpawnOutcome where
  spawned : Bool
  warned : Bool
  world : World
  governorLeft : Nat
  final : EntityM

/-- World::spawn_here_or_nearby (src/server/src/world_spawn.rs lines
39-87): when initial_radius > 0, run the retry loop with budget 128 for
boats and 8 otherwise starting from radius max(initial_radius, 1) and
threshold 6, then set guidance.direction_target to the final direction;
in every case finish through try_spawn, warning iff it failed. -/
def World.spawnHereOrNearby (w : World) (rng : Nat → Vec2 × Rat)
    (e : EntityM) (initialRadius : Rat) : SpawnOutcome :=
  let governor : Nat := if w.isBoat e then 128 else 8
  if 0 < initialRadius then
    let center := e.position
    let p := w.spawnLoop rng center e (max initialRadius 1) 6 governor 0
    let e2 := { p.1 with directionTarget := p.1.direction }
    let r := w.trySpawn e2
    ⟨r.1, !r.1, r.2, p.2, e2⟩
  else
    let r := w.trySpawn e
    ⟨r.1, !r.1, r.2, governor, e⟩

/-- Per-type population of the arena counter, models arena.count. -/
def World.count (w : World) (t : EntityType) : Nat :=
  (w.entities.filter fun e => e.entityType == t).length

/-- Target density of crates per square meter (World::CRATE_DENSITY). -/
def CRATE_DENSITY : Rat := 1 / 30000

/-- Target density of obstacles per square meter (World::OBSTACLE_DENSITY). -/
def OBSTACLE_DENSITY : Rat := 1 / 1000000

/-- Target density of vegetation per square meter (World::VEGETATION_DENSITY). -/
def VEGETATION_DENSITY : Rat := 1 / 100000

/-- World::spawn_static: one basic entity handed to try_spawn with zero
velocity target and direction_target equal to the direction. -/
def World.spawnStatic (w : World) (entityType : EntityType) (position : Vec2)
    (direction : Rat) (velocity : Rat) (ticks : Rat) : World :=
  (w.trySpawn ⟨entityType, position, direction, velocity, 0, direction, ticks, 0⟩).2

/-- The loop body of World::spawn_static_amount: n spawn_static calls, the
i-th using the i-th random draw (position within the world disk, direction,
and the lifespan randomization fraction from gen f32). -/
def World.spawnStaticGo (w : World) (rng : Nat → Vec2 × Rat × Rat)
    (entityType : EntityType) : Nat → Nat → World
  | 0, _ => w
  | n + 1, i =>
    let draw := rng i
    let lifespan := (w.dataOf entityType).lifespan
    let ticks := if lifespan ≠ 0 then lifespan * (draw.2.2 * 0.25) else 0
    (w.spawnStatic entityType draw.1 draw.2.1 0 ticks).spawnStaticGo rng entityType n (i + 1)

/-- World::spawn_static_amount: spawn min(target - current, rate) basic
entities (saturating subtraction, as in the source). -/
def World.spawnStaticAmount (w : World) (rng : Nat → Vec2 × Rat × Rat)
    (entityType : EntityType) (current target rate : Nat) : World :=
  w.spawnStaticGo rng entityType (min (target - current) rate) 0

/-- World::spawn_statics (src/server/src/world_spawn.rs lines 180-207):
crate and platform counts are read before any spawning; the platform
target counts OilPlatform and Hq together; the Acacia count is read after
the first two calls, as in the source. Refill budgets per call are 150,
2 and 1 times the tick count. -/
def World.spawnStatics (w : World) (rngC rngP rngA : Nat → Vec2 × Rat × Rat)
    (ticks : Nat) : World :=
  let crateCount := w.count EntityType.Crate
  let platformCount := w.count EntityType.OilPlatform + w.count EntityType.Hq
  let w1 := w.spawnStaticAmount rngC EntityType.Crate crateCount
    (w.targetCount CRATE_DENSITY) (ticks * 150)
  let w2 := w1.spawnStaticAmount rngP EntityType.OilPlatform platformCount
    (w1.targetCount OBSTACLE_DENSITY) (ticks * 2)
  w2.spawnStaticAmount rngA EntityType.Acacia (w2.count EntityType.Acacia)
    (max (w2.targetCount VEGETATION_DENSITY) 0) (ticks * 1)

/-! ### Concrete worlds used by counterexamples and witnesses -/

/-- A benign catalog model: every type behaves as a small collectible. -/
def dataCollectible : EntityType → EntityDataM :=
  fun _ => ⟨EntityKind.Collectible, 1, 1, false, 0⟩

/-- Collision collaborators that never collide. -/
def noCollide : EntityM → EntityM → Rat → Bool := fun _ _ _ => false

/-- Terrain collision collaborator that never collides. -/
def noTerrainCollide : EntityM → Rat → Bool := fun _ _ => false

/-- A small benign world: open water, no entities. -/
def worldC7 : World :=
  ⟨10, ⟨[]⟩, [], 2, dataCollectible, fun _ => 0, noCollide, noTerrainCollide⟩

/-- A crate at the origin. -/
def entityC7 : EntityM := ⟨EntityType.Crate, ⟨0, 0⟩, 0, 0, 0, 0, 0, 0⟩

/-- Catalog model for the threshold monotonicity counterexample: Abrams is
a land based boat of radius 4 (the real catalog derives roughly 4.37 from
hypot(7.93, 3.66) / 2; the claims are insensitive to the value), every
other type a collectible. -/
def dataC3 : EntityType → EntityDataM := fun t =>
  if t == EntityType.Abrams then ⟨EntityKind.Boat, 6, 4, true, 0⟩
  else ⟨EntityKind.Collectible, 1, 1, false, 0⟩

/-- World with a single land cell whose near edge is 50 m from the origin:
the inflated land square at threshold 6 reaches it, the square at
threshold 1 does not. -/
def worldC3 : World :=
  ⟨1000, ⟨[(2, 0)]⟩, [], 2, dataC3, fun _ => 0, noCollide, noTerrainCollide⟩

/-- A land based tank at the origin. -/
def entityC3 : EntityM := ⟨EntityType.Abrams, ⟨0, 0⟩, 0, 0, 0, 0, 0, 0⟩

/-- Catalog model for the monotonicity witness: a water based boat. -/
def dataC3W : EntityType → EntityDataM :=
  fun _ => ⟨EntityKind.Boat, 1, 1, false, 0⟩

/-- Open water world for the monotonicity witness. -/
def worldC3W : World :=
  ⟨10, ⟨[]⟩, [], 2, dataC3W, fun _ => 0, noCollide, noTerrainCollide⟩

/-- A water based boat at the origin. -/
def entityC3W : EntityM := ⟨EntityType.Fletcher, ⟨0, 0⟩, 0, 0, 0, 0, 0, 0⟩

/-- Catalog model for the governor counterexample: every type is an
obstacle of radius 1 (non-boat, so the retry budget is 8). -/
def dataC4 : EntityType → EntityDataM :=
  fun _ => ⟨EntityKind.Obstacle, 0, 1, false, 0⟩

/-- A blocking obstacle 3 m from where every retry lands: close enough to
fail every proximity check at the loop thresholds (all above 4.49), far
enough to pass at threshold 1. -/
def otherC4 : EntityM := ⟨EntityType.Hq, ⟨4, 0⟩, 0, 0, 0, 0, 0, 0⟩

/-- World for the governor counterexample. -/
def worldC4 : World :=
  ⟨100, ⟨[]⟩, [otherC4], 2, dataC4, fun _ => 0, noCollide, noTerrainCollide⟩

/-- A degenerate random stream: every attempt lands at center + (1, 0). -/
def rngC4 : Nat → Vec2 × Rat := fun _ => (⟨1, 0⟩, 0)

/-- The entity the governor counterexample tries to spawn. -/
def entityC4 : EntityM := ⟨EntityType.OilPlatform, ⟨0, 0⟩, 0, 0, 0, 0, 0, 0⟩

/-- A blocking obstacle 1.5 m from where every retry lands: fails the
proximity check at every threshold including 1. -/
def otherC4W : EntityM := ⟨EntityType.Hq, ⟨2.5, 0⟩, 0, 0, 0, 0, 0, 0⟩

/-- World for the governor witness: exhaustion and a final candidate that
also fails at threshold 1. -/
def worldC4W : World :=
  ⟨100, ⟨[]⟩, [otherC4W], 2, dataC4, fun _ => 0, noCollide, noTerrainCollide⟩

/-- A crate entity for the density counterexample. -/
def crateC10 : EntityM := ⟨EntityType.Crate, ⟨0, 0⟩, 0, 0, 0, 0, 0, 0⟩

/-- A world of zero radius (hence zero target counts) already holding 151
crates: one more than the target plus one tick of crate budget. -/
def worldC10 : World :=
  ⟨0, ⟨[]⟩, List.replicate 151 crateC10, 2, dataCollectible, fun _ => 0,
    noCollide, noTerrainCollide⟩

/-- The same world with no entities, for the density witness. -/
def worldC10W : World :=
  ⟨0, ⟨[]⟩, [], 2, dataCollectible, fun _ => 0, noCollide, noTerrainCollide⟩

/-- A degenerate random stream for static spawning. -/
def rngC10 : Nat → Vec2 × Rat × Rat := fun _ => (⟨0, 0⟩, 0, 0)

/-! ### Claims C2, C5, C6, C7, C8, C9 -/

/-- Claim C5: can_spawn_as returns true iff the drone gate passes (the
sub-kind is not Drone, or the caller is a non-bot moderator), the kind is
Boat, the level score threshold is met, and the npc restriction passes;
in particular a true result implies the kind is Boat. -/
theorem c5_canSpawnAs_spec (lts : Nat → Nat) (t : EntityType) (s : Nat)
    (bot moderator : Bool) :
    (canSpawnAs lts t s bot moderator = true ↔
      ((subKindOf t ≠ EntitySubKind.Drone ∨ (moderator = true ∧ bot = false))
        ∧ kindOf t = EntityKind.Boat ∧ lts (levelOf t) ≤ s
        ∧ (bot = true ∨ npcOf t = false)))
    ∧ (canSpawnAs lts t s bot moderator = true → kindOf t = EntityKind.Boat) := by
  have hiff : canSpawnAs lts t s bot moderator = true ↔
      ((subKindOf t ≠ EntitySubKind.Drone ∨ (moderator = true ∧ bot = false))
        ∧ kindOf t = EntityKind.Boat ∧ lts (levelOf t) ≤ s
        ∧ (bot = true ∨ npcOf t = false)) := by
    unfold canSpawnAs
    cases bot <;> cases moderator <;>
      by_cases hd : subKindOf t = EntitySubKind.Drone <;>
        simp [hd, Bool.and_eq_true, decide_eq_true_eq, beq_iff_eq] <;>
          tauto
  exact ⟨hiff, fun h => ((hiff.mp h).2).1⟩

/-- Claim C6: from Lst to Sherman, with bot and moderator false, the
upgrade is allowed iff level_to_score(4) <= score < level_to_score(6);
this guard returns directly in both directions, so outside the window the
call returns false regardless of the later cross-subkind rules. -/
theorem c6_lst_sherman (lts : Nat → Nat) (s : Nat) :
    canUpgradeTo lts EntityType.Lst EntityType.Sherman s false false = true ↔
      (lts 4 ≤ s ∧ s < lts 6) := by
  have h : canUpgradeTo lts EntityType.Lst EntityType.Sherman s false false
      = (decide (s < lts 6) && decide (lts 4 ≤ s)) := rfl
  rw [h]
  simp only [Bool.and_eq_true, decide_eq_true_eq]
  tauto

/-- Claim C2, corrected: the claim as stated is false. With moderator
false, can_upgrade_to(Abrams, Lst, 0, false, false) returns true via the
Tank to LandingShip cross-subkind rule, yet Lst has level 4 while Abrams
has level 6, so the target level is strictly below the source level. -/
theorem c2_counterexample :
    canUpgradeTo levelToScore EntityType.Abrams EntityType.Lst 0 false false = true
    ∧ levelOf EntityType.Lst < levelOf EntityType.Abrams := by
  exact ⟨by decide, by decide⟩

/-- Claim C2, amended: with moderator false, a successful upgrade whose
transition is not one of the Tank and LandingShip cross-subkind rules
(which subsume the Lst to Sherman guard) strictly increases the level;
the cross-subkind transitions themselves may lower it. -/
theorem c2_level_increases (lts : Nat → Nat) (a b : EntityType) (s : Nat)
    (bot : Bool)
    (h : canUpgradeTo lts a b s bot false = true)
    (hTL : ¬(subKindOf a = EntitySubKind.Tank
      ∧ subKindOf b = EntitySubKind.LandingShip))
    (hLT : ¬(subKindOf a = EntitySubKind.LandingShip
      ∧ subKindOf b = EntitySubKind.Tank)) :
    levelOf a < levelOf b := by
  unfold canUpgradeTo at h
  simp only [Bool.false_and, Bool.false_eq_true, if_false] at h
  split_ifs at h with h2 h3 h4 h5 h6 h7
  · simp only [Bool.and_eq_true, beq_iff_eq] at h5
    obtain ⟨ha, hb⟩ := h5
    subst ha; subst hb
    exact absurd ⟨rfl, rfl⟩ hLT
  · simp only [Bool.and_eq_true, beq_iff_eq] at h6
    exact absurd h6 hTL
  · simp only [Bool.and_eq_true, beq_iff_eq] at h7
    exact absurd h7 hLT
  · simp only [Bool.and_eq_true, decide_eq_true_eq] at h
    exact h.1.1.1

/-- Claim C2 witness: the ordinary Destroyer upgrade from Fletcher
(level 4) to ArleighBurke (level 5) satisfies the amended claim. -/
theorem c2_witness :
    levelOf EntityType.Fletcher < levelOf EntityType.ArleighBurke :=
  c2_level_increases levelToScore EntityType.Fletcher EntityType.ArleighBurke
    (levelToScore 5) false (by decide) (by decide) (by decide)

set_option maxHeartbeats 1600000 in
/-- Helper for the name round-trip: the lookup table inverts the name
function on this block of variants. -/
theorem fnChunk0 :
    fromName "Abrams" = some EntityType.Abrams
    ∧ fromName "Avenger" = some EntityType.Avenger
    ∧ fromName "J15" = some EntityType.J15
    ∧ fromName "E4N" = some EntityType.E4N
    ∧ fromName "TieFighter" = some EntityType.TieFighter
    ∧ fromName "Harbin" = some EntityType.Harbin
    ∧ fromName "Ka25" = some EntityType.Ka25
    ∧ fromName "Kingfisher" = some EntityType.Kingfisher := by
  refine ⟨?_, ?_, ?_, ?_, ?_, ?_, ?_, ?_⟩
  all_goals decide

set_option maxHeartbeats 1600000 in
/-- Helper for the name round-trip: the lookup table inverts the name
function on this block of variants. -/
theorem fnChunk1 :
    fromName "Seahawk" = some EntityType.Seahawk
    ∧ fromName "Type96" = some EntityType.Type96
    ∧ fromName "SuperEtendard" = some EntityType.SuperEtendard
    ∧ fromName "SuperFrelon" = some EntityType.SuperFrelon
    ∧ fromName "Z18" = some EntityType.Z18
    ∧ fromName "Akula" = some EntityType.Akula
    ∧ fromName "Apache" = some EntityType.Apache
    ∧ fromName "ArleighBurke" = some EntityType.ArleighBurke := by
  refine ⟨?_, ?_, ?_, ?_, ?_, ?_, ?_, ?_⟩
  all_goals decide

set_option maxHeartbeats 1600000 in
/-- Helper for the name round-trip: the lookup table inverts the name
function on this block of variants. -/
theorem fnChunk2 :
    fromName "Bismarck" = some EntityType.Bismarck
    ∧ fromName "Buyan" = some EntityType.Buyan
    ∧ fromName "B2" = some EntityType.B2
    ∧ fromName "Clemenceau" = some EntityType.Clemenceau
    ∧ fromName "Kaga" = some EntityType.Kaga
    ∧ fromName "Liaoning" = some EntityType.Liaoning
    ∧ fromName "Chinook" = some EntityType.Chinook
    ∧ fromName "Catalina" = some EntityType.Catalina := by
  refine ⟨?_, ?_, ?_, ?_, ?_, ?_, ?_, ?_⟩
  all_goals decide

set_option maxHeartbeats 1600000 in
/-- Helper for the name round-trip: the lookup table inverts the name
function on this block of variants. -/
theorem fnChunk3 :
    fromName "Spitfire" = some EntityType.Spitfire
    ∧ fromName "J20" = some EntityType.J20
    ∧ fromName "F35" = some EntityType.F35
    ∧ fromName "Dreadnought" = some EntityType.Dreadnought
    ∧ fromName "Dredger" = some EntityType.Dredger
    ∧ fromName "Drone" = some EntityType.Drone
    ∧ fromName "Espana" = some EntityType.Espana
    ∧ fromName "Ekranoplan" = some EntityType.Ekranoplan := by
  refine ⟨?_, ?_, ?_, ?_, ?_, ?_, ?_, ?_⟩
  all_goals decide

set_option maxHeartbeats 1600000 in
/-- Helper for the name round-trip: the lookup table inverts the name
function on this block of variants. -/
theorem fnChunk4 :
    fromName "Essex" = some EntityType.Essex
    ∧ fromName "FairmileD" = some EntityType.FairmileD
    ∧ fromName "Fletcher" = some EntityType.Fletcher
    ∧ fromName "Freccia" = some EntityType.Freccia
    ∧ fromName "Freedom" = some EntityType.Freedom
    ∧ fromName "G5" = some EntityType.G5
    ∧ fromName "Golf" = some EntityType.Golf
    ∧ fromName "Indiaman" = some EntityType.Indiaman := by
  refine ⟨?_, ?_, ?_, ?_, ?_, ?_, ?_, ?_⟩
  all_goals decide

set_option maxHeartbeats 1600000 in
/-- Helper for the name round-trip: the lookup table inverts the name
function on this block of variants. -/
theorem fnChunk5 :
    fromName "Iowa" = some EntityType.Iowa
    ∧ fromName "Kirov" = some EntityType.Kirov
    ∧ fromName "Kolkata" = some EntityType.Kolkata
    ∧ fromName "Komar" = some EntityType.Komar
    ∧ fromName "Leander" = some EntityType.Leander
    ∧ fromName "Lublin" = some EntityType.Lublin
    ∧ fromName "Momi" = some EntityType.Momi
    ∧ fromName "Montana" = some EntityType.Montana := by
  refine ⟨?_, ?_, ?_, ?_, ?_, ?_, ?_, ?_⟩
  all_goals decide

set_option maxHeartbeats 1600000 in
/-- Helper for the name round-trip: the lookup table inverts the name
function on this block of variants. -/
theorem fnChunk6 :
    fromName "Moskva" = some EntityType.Moskva
    ∧ fromName "Oberon" = some EntityType.Oberon
    ∧ fromName "Ohio" = some EntityType.Ohio
    ∧ fromName "Olympias" = some EntityType.Olympias
    ∧ fromName "Osa" = some EntityType.Osa
    ∧ fromName "Pt34" = some EntityType.Pt34
    ∧ fromName "Seawolf" = some EntityType.Seawolf
    ∧ fromName "Skipjack" = some EntityType.Skipjack := by
  refine ⟨?_, ?_, ?_, ?_, ?_, ?_, ?_, ?_⟩
  all_goals decide

set_option maxHeartbeats 1600000 in
/-- Helper for the name round-trip: the lookup table inverts the name
function on this block of variants. -/
theorem fnChunk7 :
    fromName "Skjold" = some EntityType.Skjold
    ∧ fromName "Sherman" = some EntityType.Sherman
    ∧ fromName "StarDestroyer" = some EntityType.StarDestroyer
    ∧ fromName "Tanker" = some EntityType.Tanker
    ∧ fromName "TerryFox" = some EntityType.TerryFox
    ∧ fromName "Town" = some EntityType.Town
    ∧ fromName "Type055" = some EntityType.Type055
    ∧ fromName "TypeViic" = some EntityType.TypeViic := by
  refine ⟨?_, ?_, ?_, ?_, ?_, ?_, ?_, ?_⟩
  all_goals decide

set_option maxHeartbeats 1600000 in
/-- Helper for the name round-trip: the lookup table inverts the name
function on this block of variants. -/
theorem fnChunk8 :
    fromName "Ticonderoga" = some EntityType.Ticonderoga
    ∧ fromName "Titanic" = some EntityType.Titanic
    ∧ fromName "Uap" = some EntityType.Uap
    ∧ fromName "Vindicator" = some EntityType.Vindicator
    ∧ fromName "Visby" = some EntityType.Visby
    ∧ fromName "Virginia" = some EntityType.Virginia
    ∧ fromName "Xwing" = some EntityType.Xwing
    ∧ fromName "Yamato" = some EntityType.Yamato := by
  refine ⟨?_, ?_, ?_, ?_, ?_, ?_, ?_, ?_⟩
  all_goals decide

set_option maxHeartbeats 1600000 in
/-- Helper for the name round-trip: the lookup table inverts the name
function on this block of variants. -/
theorem fnChunk9 :
    fromName "Yasen" = some EntityType.Yasen
    ∧ fromName "Zubr" = some EntityType.Zubr
    ∧ fromName "Lst" = some EntityType.Lst
    ∧ fromName "Zudredger" = some EntityType.Zudredger
    ∧ fromName "Zumwalt" = some EntityType.Zumwalt
    ∧ fromName "Barrel" = some EntityType.Barrel
    ∧ fromName "Coin" = some EntityType.Coin
    ∧ fromName "Crate" = some EntityType.Crate := by
  refine ⟨?_, ?_, ?_, ?_, ?_, ?_, ?_, ?_⟩
  all_goals decide

set_option maxHeartbeats 1600000 in
/-- Helper for the name round-trip: the lookup table inverts the name
function on this block of variants. -/
theorem fnChunk10 :
    fromName "Scrap" = some EntityType.Scrap
    ∧ fromName "Brosok" = some EntityType.Brosok
    ∧ fromName "Mk70" = some EntityType.Mk70
    ∧ fromName "Mk3" = some EntityType.Mk3
    ∧ fromName "Moskit" = some EntityType.Moskit
    ∧ fromName "Jagm" = some EntityType.Jagm
    ∧ fromName "Acacia" = some EntityType.Acacia
    ∧ fromName "AverageTree" = some EntityType.AverageTree := by
  refine ⟨?_, ?_, ?_, ?_, ?_, ?_, ?_, ?_⟩
  all_goals decide

set_option maxHeartbeats 1600000 in
/-- Helper for the name round-trip: the lookup table inverts the name
function on this block of variants. -/
theorem fnChunk11 :
    fromName "Palm" = some EntityType.Palm
    ∧ fromName "Hq" = some EntityType.Hq
    ∧ fromName "OilPlatform" = some EntityType.OilPlatform
    ∧ fromName "SuperOilPlatform" = some EntityType.SuperOilPlatform
    ∧ fromName "M230" = some EntityType.M230
    ∧ fromName "Type730" = some EntityType.Type730
    ∧ fromName "Turbolaser" = some EntityType.Turbolaser
    ∧ fromName "ShermanTurret" = some EntityType.ShermanTurret := by
  refine ⟨?_, ?_, ?_, ?_, ?_, ?_, ?_, ?_⟩
  all_goals decide

set_option maxHeartbeats 1600000 in
/-- Helper for the name round-trip: the lookup table inverts the name
function on this block of variants. -/
theorem fnChunk12 :
    fromName "AbramsTurret" = some EntityType.AbramsTurret
    ∧ fromName "_100Mm" = some EntityType._100Mm
    ∧ fromName "_200Mm" = some EntityType._200Mm
    ∧ fromName "_2M3M" = some EntityType._2M3M
    ∧ fromName "_38CmSkc34" = some EntityType._38CmSkc34
    ∧ fromName "_45Type94" = some EntityType._45Type94
    ∧ fromName "_6Pounder" = some EntityType._6Pounder
    ∧ fromName "_88CmSkc35" = some EntityType._88CmSkc35 := by
  refine ⟨?_, ?_, ?_, ?_, ?_, ?_, ?_, ?_⟩
  all_goals decide

set_option maxHeartbeats 1600000 in
/-- Helper for the name round-trip: the lookup table inverts the name
function on this block of variants. -/
theorem fnChunk13 :
    fromName "_M1919" = some EntityType._M1919
    ∧ fromName "A190" = some EntityType.A190
    ∧ fromName "Ak130" = some EntityType.Ak130
    ∧ fromName "Ansaldo" = some EntityType.Ansaldo
    ∧ fromName "Bl6MkXxiii" = some EntityType.Bl6MkXxiii
    ∧ fromName "Bl6MkXxiiiX3" = some EntityType.Bl6MkXxiiiX3
    ∧ fromName "Bofors57MmMk3" = some EntityType.Bofors57MmMk3
    ∧ fromName "Crotale" = some EntityType.Crotale := by
  refine ⟨?_, ?_, ?_, ?_, ?_, ?_, ?_, ?_⟩
  all_goals decide

set_option maxHeartbeats 1600000 in
/-- Helper for the name round-trip: the lookup table inverts the name
function on this block of variants. -/
theorem fnChunk14 :
    fromName "Hq10" = some EntityType.Hq10
    ∧ fromName "Hpj38" = some EntityType.Hpj38
    ∧ fromName "Mark12" = some EntityType.Mark12
    ∧ fromName "Mark12X2" = some EntityType.Mark12X2
    ∧ fromName "Mark49" = some EntityType.Mark49
    ∧ fromName "Mark51" = some EntityType.Mark51
    ∧ fromName "Mark7" = some EntityType.Mark7
    ∧ fromName "MarkBViii" = some EntityType.MarkBViii := by
  refine ⟨?_, ?_, ?_, ?_, ?_, ?_, ?_, ?_⟩
  all_goals decide

set_option maxHeartbeats 1600000 in
/-- Helper for the name round-trip: the lookup table inverts the name
function on this block of variants. -/
theorem fnChunk15 :
    fromName "Ogon" = some EntityType.Ogon
    ∧ fromName "OtoMelara76Mm" = some EntityType.OtoMelara76Mm
    ∧ fromName "RatepKomar" = some EntityType.RatepKomar
    ∧ fromName "Shtorm" = some EntityType.Shtorm
    ∧ fromName "VickersMkH12In" = some EntityType.VickersMkH12In
    ∧ fromName "Blaster" = some EntityType.Blaster
    ∧ fromName "GreenBlaster" = some EntityType.GreenBlaster
    ∧ fromName "VBlaster" = some EntityType.VBlaster := by
  refine ⟨?_, ?_, ?_, ?_, ?_, ?_, ?_, ?_⟩
  all_goals decide

set_option maxHeartbeats 1600000 in
/-- Helper for the name round-trip: the lookup table inverts the name
function on this block of variants. -/
theorem fnChunk16 :
    fromName "VProjector" = some EntityType.VProjector
    ∧ fromName "VMissiles" = some EntityType.VMissiles
    ∧ fromName "_30X130MmR" = some EntityType._30X130MmR
    ∧ fromName "_30X165MmR" = some EntityType._30X165MmR
    ∧ fromName "_762X54MmR" = some EntityType._762X54MmR
    ∧ fromName "_200X1070MmR" = some EntityType._200X1070MmR
    ∧ fromName "_127X680MmR" = some EntityType._127X680MmR
    ∧ fromName "_130X720MmR" = some EntityType._130X720MmR := by
  refine ⟨?_, ?_, ?_, ?_, ?_, ?_, ?_, ?_⟩
  all_goals decide

set_option maxHeartbeats 1600000 in
/-- Helper for the name round-trip: the lookup table inverts the name
function on this block of variants. -/
theorem fnChunk17 :
    fromName "_75X667MmR" = some EntityType._75X667MmR
    ∧ fromName "_120X570MmR" = some EntityType._120X570MmR
    ∧ fromName "_25X129MmR" = some EntityType._25X129MmR
    ∧ fromName "_300X1400MmR" = some EntityType._300X1400MmR
    ∧ fromName "_380X1700MmR" = some EntityType._380X1700MmR
    ∧ fromName "_458X1980MmR" = some EntityType._458X1980MmR
    ∧ fromName "_57X441MmR" = some EntityType._57X441MmR
    ∧ fromName "_76X636MmR" = some EntityType._76X636MmR := by
  refine ⟨?_, ?_, ?_, ?_, ?_, ?_, ?_, ?_⟩
  all_goals decide

set_option maxHeartbeats 1600000 in
/-- Helper for the name round-trip: the lookup table inverts the name
function on this block of variants. -/
theorem fnChunk18 :
    fromName "_82R" = some EntityType._82R
    ∧ fromName "Asroc" = some EntityType.Asroc
    ∧ fromName "Barak8" = some EntityType.Barak8
    ∧ fromName "Pl12" = some EntityType.Pl12
    ∧ fromName "BrahMos" = some EntityType.BrahMos
    ∧ fromName "Hellfire" = some EntityType.Hellfire
    ∧ fromName "CannonBall" = some EntityType.CannonBall
    ∧ fromName "Depositor" = some EntityType.Depositor := by
  refine ⟨?_, ?_, ?_, ?_, ?_, ?_, ?_, ?_⟩
  all_goals decide

set_option maxHeartbeats 1600000 in
/-- Helper for the name round-trip: the lookup table inverts the name
function on this block of variants. -/
theorem fnChunk19 :
    fromName "Shovel" = some EntityType.Shovel
    ∧ fromName "Essm" = some EntityType.Essm
    ∧ fromName "Exocet" = some EntityType.Exocet
    ∧ fromName "Harpoon" = some EntityType.Harpoon
    ∧ fromName "Hq9" = some EntityType.Hq9
    ∧ fromName "Igla" = some EntityType.Igla
    ∧ fromName "Kalibr" = some EntityType.Kalibr
    ∧ fromName "Lrlap" = some EntityType.Lrlap := by
  refine ⟨?_, ?_, ?_, ?_, ?_, ?_, ?_, ?_⟩
  all_goals decide

set_option maxHeartbeats 1600000 in
/-- Helper for the name round-trip: the lookup table inverts the name
function on this block of variants. -/
theorem fnChunk20 :
    fromName "Magic" = some EntityType.Magic
    ∧ fromName "Mark18" = some EntityType.Mark18
    ∧ fromName "Mark48" = some EntityType.Mark48
    ∧ fromName "Mark54" = some EntityType.Mark54
    ∧ fromName "Yu7" = some EntityType.Yu7
    ∧ fromName "Mark8" = some EntityType.Mark8
    ∧ fromName "Mark9" = some EntityType.Mark9
    ∧ fromName "Mistral" = some EntityType.Mistral := by
  refine ⟨?_, ?_, ?_, ?_, ?_, ?_, ?_, ?_⟩
  all_goals decide

set_option maxHeartbeats 1600000 in
/-- Helper for the name round-trip: the lookup table inverts the name
function on this block of variants. -/
theorem fnChunk21 :
    fromName "Nsm" = some EntityType.Nsm
    ∧ fromName "Of45" = some EntityType.Of45
    ∧ fromName "RP3" = some EntityType.RP3
    ∧ fromName "P15" = some EntityType.P15
    ∧ fromName "P700" = some EntityType.P700
    ∧ fromName "Rbs15" = some EntityType.Rbs15
    ∧ fromName "Rim116" = some EntityType.Rim116
    ∧ fromName "Rpk6" = some EntityType.Rpk6 := by
  refine ⟨?_, ?_, ?_, ?_, ?_, ?_, ?_, ?_⟩
  all_goals decide

set_option maxHeartbeats 1600000 in
/-- Helper for the name round-trip: the lookup table inverts the name
function on this block of variants. -/
theorem fnChunk22 :
    fromName "S300" = some EntityType.S300
    ∧ fromName "Set65" = some EntityType.Set65
    ∧ fromName "Tomahawk" = some EntityType.Tomahawk
    ∧ fromName "Torped45" = some EntityType.Torped45
    ∧ fromName "Type53" = some EntityType.Type53
    ∧ fromName "V611" = some EntityType.V611
    ∧ fromName "Vt1" = some EntityType.Vt1
    ∧ fromName "Hq10SAM" = some EntityType.Hq10SAM := by
  refine ⟨?_, ?_, ?_, ?_, ?_, ?_, ?_, ?_⟩
  all_goals decide

set_option maxHeartbeats 1600000 in
/-- Helper for the name round-trip: the lookup table inverts the name
function on this block of variants. -/
theorem fnChunk23 :
    fromName "Ls6" = some EntityType.Ls6
    ∧ fromName "Wz0839" = some EntityType.Wz0839
    ∧ fromName "Type96Bomb" = some EntityType.Type96Bomb
    ∧ fromName "Mk82" = some EntityType.Mk82
    ∧ fromName "Yj18" = some EntityType.Yj18 := by
  refine ⟨?_, ?_, ?_, ?_, ?_⟩
  all_goals decide

set_option maxHeartbeats 4000000 in
/-- Claim C8: for every variant, deserializing its name yields the variant
and deserializing its ordinal yields the variant; an unknown name string
and every out-of-range ordinal yield no variant (a decode error). -/
theorem c8_roundtrip :
    (∀ t : EntityType, fromName t.name = some t ∧ fromOrdinal t.ordinal = some t)
    ∧ fromName "NoSuchShip" = none
    ∧ (∀ n : Nat, EntityType.count ≤ n → fromOrdinal n = none) := by
  refine ⟨fun t => ⟨?_, ?_⟩, by decide, fun n hn => ?_⟩
  · cases t <;> simp only [EntityType.name, fnChunk0, fnChunk1, fnChunk2, fnChunk3, fnChunk4, fnChunk5, fnChunk6, fnChunk7, fnChunk8, fnChunk9, fnChunk10, fnChunk11, fnChunk12, fnChunk13, fnChunk14, fnChunk15, fnChunk16, fnChunk17, fnChunk18, fnChunk19, fnChunk20, fnChunk21, fnChunk22, fnChunk23]
  · cases t <;> decide
  · unfold fromOrdinal
    rw [if_neg (not_lt.mpr hn)]

/-- Claim C8 witness: the out-of-range byte 255 decodes to no variant. -/
theorem c8_witness : fromOrdinal 255 = none :=
  c8_roundtrip.2.2 255 (by decide)

/-- Claim C9: can_spawn panics (returns none in this model) iff the
threshold is below 1.0; for every threshold at least 1.0 it totally
returns the boolean of the placement checks. -/
theorem c9_canSpawn_total (w : World) (e : EntityM) (t : Rat) :
    (w.canSpawn e t = none ↔ t < 1)
    ∧ (1 ≤ t → w.canSpawn e t = some (w.canSpawnOk e t)) := by
  constructor
  · by_cases h : t < 1
    · simp [World.canSpawn, h]
    · simp [World.canSpawn, h]
  · intro h
    simp [World.canSpawn, not_lt.mpr h]

/-- Claim C9 witness: at threshold exactly 1 the check runs and returns a
boolean. -/
theorem c9_witness :
    worldC7.canSpawn entityC7 1 = some (worldC7.canSpawnOk entityC7 1) :=
  (c9_canSpawn_total worldC7 entityC7 1).2 (le_refl 1)

/-- Claim C7: try_spawn returns true iff can_spawn at threshold 1.0
accepts; on success the entity is appended to the index with every
pre-existing entity untouched; on failure the world is unchanged. -/
theorem c7_trySpawn_spec (w : World) (e : EntityM) :
    ((w.trySpawn e).1 = true ↔ w.canSpawn e 1 = some true)
    ∧ ((w.trySpawn e).1 = true → (w.trySpawn e).2.entities = w.entities ++ [e])
    ∧ ((w.trySpawn e).1 = false → (w.trySpawn e).2 = w) := by
  unfold World.trySpawn World.canSpawn
  by_cases h : w.canSpawnOk e 1 = true
  · simp [h, World.add]
  · simp [h]

/-- Claim C7 witness: in an open-water world the crate is accepted and
lands at the end of the entity list. -/
theorem c7_witness :
    (worldC7.trySpawn entityC7).2.entities = worldC7.entities ++ [entityC7] :=
  (c7_trySpawn_spec worldC7 entityC7).2.1 (by with_unfolding_all decide)

/-! ### Claim C1: the catalog maximum radius -/

/-- Helper: the initial accumulator bounds a foldl of max from below. -/
theorem le_foldl_max (l : List Rat) (a : Rat) : a ≤ l.foldl max a := by
  induction l generalizing a with
  | nil => exact le_refl a
  | cons x xs ih => exact le_trans (le_max_left a x) (ih (max a x))

/-- Helper: every member bounds a foldl of max from below. -/
theorem mem_le_foldl_max (l : List Rat) : ∀ (a x : Rat), x ∈ l → x ≤ l.foldl max a := by
  induction l with
  | nil => intro a x hx; cases hx
  | cons y ys ih =>
    intro a x hx
    rcases List.mem_cons.mp hx with h | h
    · subst h
      exact le_trans (le_max_right a x) (le_foldl_max ys (max a x))
    · exact ih (max a y) x h

/-- Helper: a foldl of max is the initial accumulator or a member. -/
theorem foldl_max_attained (l : List Rat) :
    ∀ a : Rat, l.foldl max a = a ∨ l.foldl max a ∈ l := by
  induction l with
  | nil => intro a; exact Or.inl rfl
  | cons y ys ih =>
    intro a
    rcases ih (max a y) with h | h
    · rcases le_or_lt a y with hay | hay
      · refine Or.inr ?_
        have : (y :: ys).foldl max a = max a y := h
        rw [this, max_eq_right hay]
        exact List.mem_cons_self y ys
      · refine Or.inl ?_
        have : (y :: ys).foldl max a = max a y := h
        rw [this, max_eq_left (le_of_lt hay)]
    · exact Or.inr (List.mem_cons_of_mem y h)

/-- Helper: dividing by 4 commutes with a foldl of max. -/
theorem foldl_max_div_four (l : List Rat) :
    ∀ a : Rat, (l.foldl max a) / 4 = (l.map (fun x => x / 4)).foldl max (a / 4) := by
  induction l with
  | nil => intro a; rfl
  | cons y ys ih =>
    intro a
    show (ys.foldl max (max a y)) / 4 = (ys.map _).foldl max (max (a / 4) (y / 4))
    rw [max_div_div_right (by norm_num : (0:Rat) ≤ 4) a y]
    exact ih (max a y)

/-- Helper: the ordinal of every variant is below the variant count. -/
theorem ordinal_lt_count (t : EntityType) : t.ordinal < EntityType.count := by
  cases t <;> decide

/-- Helper: ofIdx inverts the ordinal. -/
theorem ofIdx_ordinal (t : EntityType) : EntityType.ofIdx t.ordinal = t := by
  cases t <;> rfl

/-- Helper: every variant occurs in the enumeration. -/
theorem mem_all (t : EntityType) : t ∈ EntityType.all :=
  List.mem_map.mpr
    ⟨t.ordinal, List.mem_range.mpr (ordinal_lt_count t), ofIdx_ordinal t⟩

/-- Helper: the macro fold expressed over the mapped list. -/
theorem genMax_as_map :
    genMaxRadiusSq = (EntityType.all.map hypotSq).foldl max 0 := by
  unfold genMaxRadiusSq
  rw [List.foldl_map]

/-- Helper: the claimed fold expressed over the mapped list. -/
theorem specMax_as_map :
    specMaxRadiusSq = (EntityType.all.map radiusSq).foldl max 0 := by
  unfold specMaxRadiusSq
  rw [List.foldl_map]

/-- Helper: the generated constant is four times the claimed one, because the
generator folds hypot itself while the derived radius is hypot over two
(so the squares differ by a factor of four). -/
theorem specMax_eq : specMaxRadiusSq = genMaxRadiusSq / 4 := by
  rw [specMax_as_map, genMax_as_map]
  have hmap : EntityType.all.map radiusSq
      = (EntityType.all.map hypotSq).map (fun x => x / 4) := by
    rw [List.map_map]
    rfl
  rw [hmap, foldl_max_div_four (EntityType.all.map hypotSq) 0]
  norm_num

/-- Helper: Abrams has positive squared hypot, so the generated maximum
is positive. -/
theorem genMax_pos : 0 < genMaxRadiusSq := by
  have habr : (0:Rat) < hypotSq EntityType.Abrams := by
    with_unfolding_all decide
  have hle : hypotSq EntityType.Abrams ≤ genMaxRadiusSq := by
    rw [genMax_as_map]
    exact mem_le_foldl_max _ 0 _ (List.mem_map_of_mem hypotSq (mem_all _))
  exact lt_of_lt_of_le habr hle

/-- Claim C1, corrected: the claim as stated is false. The generator in
src/macros/src/lib.rs folds max over hypot(length, width) without the
division by two, so MAX_RADIUS is twice the maximum derived radius; the
two quantities differ (compared through their squares, which determine
the nonnegative values). -/
theorem c1_counterexample : genMaxRadiusSq ≠ specMaxRadiusSq := by
  have hspec := specMax_eq
  have hpos := genMax_pos
  intro h
  rw [hspec] at h
  linarith

/-- Claim C1, amended: MAX_RADIUS equals the catalog maximum of
hypot(length, width) itself, which is twice the maximum derived radius
(squares scale by four); consequently every derived radius is at most the
maximum derived radius, that bound is attained by some type, and every
derived radius is strictly below MAX_RADIUS, so no type attains it. -/
theorem c1_genMax_spec :
    genMaxRadiusSq = 4 * specMaxRadiusSq
    ∧ (∀ t : EntityType, radiusSq t ≤ specMaxRadiusSq)
    ∧ (∃ t : EntityType, radiusSq t = specMaxRadiusSq)
    ∧ (∀ t : EntityType, radiusSq t < genMaxRadiusSq) := by
  have hspec := specMax_eq
  have hpos := genMax_pos
  have hle : ∀ t : EntityType, radiusSq t ≤ specMaxRadiusSq := by
    intro t
    rw [specMax_as_map]
    exact mem_le_foldl_max _ 0 _ (List.mem_map_of_mem radiusSq (mem_all t))
  refine ⟨by rw [hspec]; ring, hle, ?_, fun t => ?_⟩
  · rcases foldl_max_attained (EntityType.all.map radiusSq) 0 with h | h
    · exfalso
      have hzero : specMaxRadiusSq = 0 := by rw [specMax_as_map, h]
      rw [hzero] at hspec
      linarith
    · rcases List.mem_map.mp h with ⟨t, _, ht⟩
      exact ⟨t, by rw [specMax_as_map]; exact ht⟩
  · have := hle t
    rw [hspec] at this
    linarith

/-! ### Claim C3: threshold monotonicity of can_spawn -/

/-- Helper: land_in_square is monotone in the side of the square, because
growing the square can only let it reach more land cells. -/
theorem landInSquare_mono (tr : Terrain) (c : Vec2) (s1 s2 : Rat)
    (h12 : s1 ≤ s2) (h : tr.landInSquare c s1 = true) :
    tr.landInSquare c s2 = true := by
  unfold Terrain.landInSquare at h ⊢
  rw [List.any_eq_true] at h ⊢
  obtain ⟨cell, hmem, hp⟩ := h
  refine ⟨cell, hmem, ?_⟩
  simp only [Bool.and_eq_true, decide_eq_true_eq] at hp ⊢
  obtain ⟨⟨⟨p1, p2⟩, p3⟩, p4⟩ := hp
  exact ⟨⟨⟨by linarith, by linarith⟩, by linarith⟩, by linarith⟩

/-- Helper: scaling a square by a larger nonnegative factor grows it. -/
theorem mul_self_le_scale (R m1 m2 : Rat) (h0 : 0 ≤ m1) (h : m1 ≤ m2) :
    (R * m1) * (R * m1) ≤ (R * m2) * (R * m2) := by
  have h1 : m1 * m1 ≤ m2 * m2 := mul_le_mul h h h0 (le_trans h0 h)
  calc (R * m1) * (R * m1) = (R * R) * (m1 * m1) := by ring
    _ ≤ (R * R) * (m2 * m2) := mul_le_mul_of_nonneg_left h1 (mul_self_nonneg R)
    _ = (R * m2) * (R * m2) := by ring

/-- Helper: the proximity check is monotone in the threshold: a larger
threshold scans a superset of entities and demands a larger safe
distance from each, so passing at the larger threshold implies passing at
the smaller one. -/
theorem proximityBlocked_mono (w : World) (e : EntityM) (t1 t2 : Rat)
    (h1 : 1 ≤ t1) (h12 : t1 ≤ t2)
    (h : w.proximityBlocked e t2 = false) :
    w.proximityBlocked e t1 = false := by
  have h0 : (0:Rat) ≤ t1 := le_trans zero_le_one h1
  unfold World.proximityBlocked World.iterRadius at h ⊢
  rw [List.any_eq_false] at h ⊢
  intro o ho
  simp only [List.mem_filter, decide_eq_true_eq] at ho
  obtain ⟨hoe, hod⟩ := ho
  have hscan : Vec2.distanceSq e.position o.position
      ≤ (((w.dataOf e.entityType).radius + w.maxRadius) * t2)
        * (((w.dataOf e.entityType).radius + w.maxRadius) * t2) :=
    le_trans hod (mul_self_le_scale _ t1 t2 h0 h12)
  have ho2 := h o (List.mem_filter.mpr ⟨hoe, decide_eq_true hscan⟩)
  intro hp1
  apply ho2
  simp only [Bool.and_eq_true, decide_eq_true_eq] at hp1 ⊢
  obtain ⟨hnc, hdist⟩ := hp1
  refine ⟨hnc, ?_⟩
  by_cases hb : (w.isBoat e = true ∧ w.isBoat o = true)
      ∧ 2 < (w.dataOf o.entityType).level
  · rw [if_pos hb] at hdist ⊢
    exact le_trans hdist (mul_self_le_scale _ t1 t2 h0 h12)
  · rw [if_neg hb] at hdist ⊢
    have hm0 : (0:Rat) ≤ max (t1 * 0.5) 1 := le_trans zero_le_one (le_max_right _ 1)
    have hmm : max (t1 * 0.5) 1 ≤ max (t2 * 0.5) 1 :=
      max_le_max (by linarith) (le_refl 1)
    exact le_trans hdist (mul_self_le_scale _ _ _ hm0 hmm)

/-- Helper: for a water-based entity of nonnegative radius the terrain
category check is monotone in the threshold: the inflated square only
grows, so absence of land persists downward. -/
theorem landCheckFails_mono (w : World) (e : EntityM) (t1 t2 : Rat)
    (h12 : t1 ≤ t2)
    (hlb : (w.dataOf e.entityType).landBased = false)
    (hr : 0 ≤ (w.dataOf e.entityType).radius)
    (h : w.landCheckFails e t2 = false) :
    w.landCheckFails e t1 = false := by
  unfold World.landCheckFails at h ⊢
  rw [hlb] at h ⊢
  rw [bne_eq_false_iff_eq] at h ⊢
  cases hcase : w.terrain.landInSquare e.position
      (((w.dataOf e.entityType).radius + SCALE) * 2 * t1) with
  | false => rfl
  | true =>
    have hf : (0:Rat) ≤ ((w.dataOf e.entityType).radius + SCALE) * 2 := by
      unfold SCALE
      linarith
    have hside : ((w.dataOf e.entityType).radius + SCALE) * 2 * t1
        ≤ ((w.dataOf e.entityType).radius + SCALE) * 2 * t2 :=
      mul_le_mul_of_nonneg_left h12 hf
    have h2 := landInSquare_mono _ _ _ _ hside hcase
    rw [h2] at h
    exact h

/-- Claim C3, corrected: the claim as stated is false for land-based
entities. In a world whose only land cell starts 50 m away, a land-based
tank at the origin passes can_spawn at threshold 6 (the inflated square
reaches the land) but fails at threshold 1, with 1 <= 1 <= 6. -/
theorem c3_counterexample :
    (1:Rat) ≤ 1 ∧ (1:Rat) ≤ 6
    ∧ worldC3.canSpawn entityC3 6 = some true
    ∧ worldC3.canSpawn entityC3 1 = some false :=
  ⟨le_refl 1, by norm_num, by with_unfolding_all decide,
    by with_unfolding_all decide⟩

/-- Claim C3, amended: for every entity whose data is not land based
(and has nonnegative radius, true of every real catalog entry), the
spawn test is monotonically stricter in the threshold: passing at the
larger threshold t2 implies passing at any smaller threshold t1 with
1 <= t1 <= t2. For land-based entities the terrain category check makes
this fail, as the counterexample shows. -/
theorem c3_canSpawn_mono (w : World) (e : EntityM) (t1 t2 : Rat)
    (h1 : 1 ≤ t1) (h12 : t1 ≤ t2)
    (hlb : (w.dataOf e.entityType).landBased = false)
    (hr : 0 ≤ (w.dataOf e.entityType).radius)
    (h : w.canSpawn e t2 = some true) :
    w.canSpawn e t1 = some true := by
  have h2 : (1:Rat) ≤ t2 := le_trans h1 h12
  unfold World.canSpawn at h ⊢
  rw [if_neg (not_lt.mpr h2)] at h
  rw [if_neg (not_lt.mpr h1)]
  rw [Option.some_inj] at h ⊢
  unfold World.canSpawnOk at h ⊢
  split at h
  · exact absurd h (by simp)
  rename_i hout
  rw [if_neg hout]
  cases hk : (w.dataOf e.entityType).kind with
  | Aircraft => simp only [hk] at h ⊢; exact h
  | Weapon => simp only [hk] at h ⊢; exact h
  | Decoy => simp only [hk] at h ⊢; exact h
  | Collectible => simp only [hk] at h ⊢; exact h
  | Boat =>
    simp only [hk] at h ⊢
    split at h
    · exact absurd h (by simp)
    rename_i hlc2
    have hlc2f : w.landCheckFails e t2 = false := by
      revert hlc2; cases w.landCheckFails e t2 <;> simp
    have hlc1f := landCheckFails_mono w e t1 t2 h12 hlb hr hlc2f
    rw [hlc1f]
    simp only [Bool.false_eq_true, if_false]
    simp only [Bool.not_eq_true'] at h ⊢
    exact proximityBlocked_mono w e t1 t2 h1 h12 h
  | Turret =>
    simp only [hk] at h ⊢
    split at h
    · exact absurd h (by simp)
    rename_i hlc2
    have hlc2f : w.landCheckFails e t2 = false := by
      revert hlc2; cases w.landCheckFails e t2 <;> simp
    have hlc1f := landCheckFails_mono w e t1 t2 h12 hlb hr hlc2f
    rw [hlc1f]
    simp only [Bool.false_eq_true, if_false]
    simp only [Bool.not_eq_true'] at h ⊢
    exact proximityBlocked_mono w e t1 t2 h1 h12 h
  | Obstacle =>
    simp only [hk] at h ⊢
    split at h
    · exact absurd h (by simp)
    rename_i hlc2
    have hlc2f : w.landCheckFails e t2 = false := by
      revert hlc2; cases w.landCheckFails e t2 <;> simp
    have hlc1f := landCheckFails_mono w e t1 t2 h12 hlb hr hlc2f
    rw [hlc1f]
    simp only [Bool.false_eq_true, if_false]
    simp only [Bool.not_eq_true'] at h ⊢
    exact proximityBlocked_mono w e t1 t2 h1 h12 h

/-- Claim C3 witness: a water-based boat in an open-water world passes at
threshold 2 and hence, by monotonicity, at threshold 1. -/
theorem c3_witness : worldC3W.canSpawn entityC3W 1 = some true :=
  c3_canSpawn_mono worldC3W entityC3W 1 2 (le_refl 1)
    (by with_unfolding_all decide) rfl
    (by with_unfolding_all decide) (by with_unfolding_all decide)

/-! ### Claim C4: governor exhaustion in spawn_here_or_nearby -/

/-- Claim C4, corrected: the claim as stated is false. In this world the
non-boat governor budget of 8 is exhausted (every loop attempt fails
can_spawn at the prevailing threshold, which stays above 4.49), yet the
call succeeds without warning, because the final repositioned candidate
is still handed to try_spawn, which re-tests at threshold 1.0 and
accepts: the blocking obstacle 3 m away violates the safe distance at
every loop threshold but not at threshold 1. -/
theorem c4_counterexample :
    (0:Rat) < 5
    ∧ (worldC4.spawnHereOrNearby rngC4 entityC4 5).governorLeft = 0
    ∧ (worldC4.spawnHereOrNearby rngC4 entityC4 5).spawned = true
    ∧ (worldC4.spawnHereOrNearby rngC4 entityC4 5).warned = false :=
  ⟨by norm_num, by with_unfolding_all decide, by with_unfolding_all decide,
    by with_unfolding_all decide⟩

/-- Claim C4, amended: when the governor is exhausted (no attempt passed
can_spawn at the prevailing threshold) and the final repositioned
candidate also fails can_spawn at threshold 1.0, the call warns and
returns false. Exhaustion alone does not force failure, because the
final candidate is still handed to try_spawn at threshold 1.0. -/
theorem c4_exhausted_spec (w : World) (rng : Nat → Vec2 × Rat)
    (e : EntityM) (r : Rat)
    (hg : (w.spawnHereOrNearby rng e r).governorLeft = 0)
    (hf : w.canSpawnOk (w.spawnHereOrNearby rng e r).final 1 = false) :
    (w.spawnHereOrNearby rng e r).spawned = false
    ∧ (w.spawnHereOrNearby rng e r).warned = true := by
  unfold World.spawnHereOrNearby at hg hf ⊢
  by_cases hr : 0 < r
  · rw [if_pos hr] at hg hf ⊢
    simp only [] at hg hf ⊢
    unfold World.trySpawn
    rw [hf]
    simp
  · rw [if_neg hr] at hg
    simp only [] at hg
    split at hg <;> simp at hg

/-- Claim C4 witness: with the obstacle 1.5 m from every retry position,
the governor is exhausted, the final candidate fails even at threshold
1.0, and the call warns and returns false. -/
theorem c4_witness :
    (worldC4W.spawnHereOrNearby rngC4 entityC4 5).spawned = false
    ∧ (worldC4W.spawnHereOrNearby rngC4 entityC4 5).warned = true :=
  c4_exhausted_spec worldC4W rngC4 entityC4 5
    (by with_unfolding_all decide) (by with_unfolding_all decide)

/-! ### Claim C10: density-maintained static spawning -/

/-- Helper: adding appends one entity to the index. -/
theorem count_add (w : World) (e : EntityM) (t : EntityType) :
    (w.add e).count t = w.count t + (if e.entityType = t then 1 else 0) := by
  unfold World.count World.add
  rw [List.filter_append, List.length_append]
  by_cases he : e.entityType = t
  · simp [he]
  · simp [he]

/-- Helper: try_spawn leaves the world alone or appends the entity. -/
theorem trySpawn_world_cases (w : World) (e : EntityM) :
    (w.trySpawn e).2 = w ∨ (w.trySpawn e).2 = w.add e := by
  unfold World.trySpawn
  split
  · exact Or.inr rfl
  · exact Or.inl rfl

/-- Helper: try_spawn grows the count of the spawned type by at most one. -/
theorem trySpawn_count_le (w : World) (e : EntityM) (t : EntityType) :
    ((w.trySpawn e).2).count t ≤ w.count t + 1 := by
  rcases trySpawn_world_cases w e with h | h
  · rw [h]; omega
  · rw [h, count_add]
    split <;> omega

/-- Helper: try_spawn does not change counts of other types. -/
theorem trySpawn_count_ne (w : World) (e : EntityM) (t : EntityType)
    (h : e.entityType ≠ t) : ((w.trySpawn e).2).count t = w.count t := by
  rcases trySpawn_world_cases w e with hc | hc
  · rw [hc]
  · rw [hc, count_add, if_neg h]
    omega

/-- Helper: try_spawn never removes an entity. -/
theorem trySpawn_entities_ext (w : World) (e : EntityM) :
    ∃ ext, ((w.trySpawn e).2).entities = w.entities ++ ext := by
  rcases trySpawn_world_cases w e with hc | hc
  · exact ⟨[], by rw [hc, List.append_nil]⟩
  · exact ⟨[e], by rw [hc]; rfl⟩

/-- Helper: try_spawn preserves the target count function. -/
theorem trySpawn_targetCount (w : World) (e : EntityM) :
    ((w.trySpawn e).2).targetCount = w.targetCount := by
  rcases trySpawn_world_cases w e with hc | hc
  · rw [hc]
  · rw [hc]; rfl

/-- Helper: spawn_static grows the count of its type by at most one. -/
theorem spawnStatic_count_le (w : World) (t : EntityType) (pos : Vec2)
    (dir vel ticks : Rat) :
    (w.spawnStatic t pos dir vel ticks).count t ≤ w.count t + 1 :=
  trySpawn_count_le w _ t

/-- Helper: spawn_static does not change counts of other types. -/
theorem spawnStatic_count_ne (w : World) (t t2 : EntityType) (pos : Vec2)
    (dir vel ticks : Rat) (h : t ≠ t2) :
    (w.spawnStatic t pos dir vel ticks).count t2 = w.count t2 :=
  trySpawn_count_ne w _ t2 h

/-- Helper: spawn_static never removes an entity. -/
theorem spawnStatic_entities_ext (w : World) (t : EntityType) (pos : Vec2)
    (dir vel ticks : Rat) :
    ∃ ext, (w.spawnStatic t pos dir vel ticks).entities = w.entities ++ ext :=
  trySpawn_entities_ext w _

/-- Helper: spawn_static preserves the target count function. -/
theorem spawnStatic_targetCount (w : World) (t : EntityType) (pos : Vec2)
    (dir vel ticks : Rat) :
    (w.spawnStatic t pos dir vel ticks).targetCount = w.targetCount :=
  trySpawn_targetCount w _

/-- Helper: the spawn loop grows the count of its type by at most its
iteration budget. -/
theorem go_count_le (rng : Nat → Vec2 × Rat × Rat) (t : EntityType) :
    ∀ (n i : Nat) (w : World),
      (w.spawnStaticGo rng t n i).count t ≤ w.count t + n := by
  intro n
  induction n with
  | zero => intro i w; simp only [World.spawnStaticGo]; omega
  | succ n ih =>
    intro i w
    simp only [World.spawnStaticGo]
    refine le_trans (ih (i + 1) _) ?_
    have h1 := spawnStatic_count_le w t (rng i).1 (rng i).2.1 0
      (if (w.dataOf t).lifespan ≠ 0
        then (w.dataOf t).lifespan * ((rng i).2.2 * 0.25) else 0)
    omega

/-- Helper: the spawn loop does not change counts of other types. -/
theorem go_count_ne (rng : Nat → Vec2 × Rat × Rat) (t t2 : EntityType)
    (h : t ≠ t2) :
    ∀ (n i : Nat) (w : World),
      (w.spawnStaticGo rng t n i).count t2 = w.count t2 := by
  intro n
  induction n with
  | zero => intro i w; rfl
  | succ n ih =>
    intro i w
    simp only [World.spawnStaticGo]
    rw [ih (i + 1) _, spawnStatic_count_ne _ _ _ _ _ _ _ h]

/-- Helper: the spawn loop never removes an entity. -/
theorem go_entities_ext (rng : Nat → Vec2 × Rat × Rat) (t : EntityType) :
    ∀ (n i : Nat) (w : World),
      ∃ ext, (w.spawnStaticGo rng t n i).entities = w.entities ++ ext := by
  intro n
  induction n with
  | zero => intro i w; exact ⟨[], by rw [List.append_nil]; rfl⟩
  | succ n ih =>
    intro i w
    simp only [World.spawnStaticGo]
    obtain ⟨ext1, h1⟩ := spawnStatic_entities_ext w t (rng i).1 (rng i).2.1 0
      (if (w.dataOf t).lifespan ≠ 0
        then (w.dataOf t).lifespan * ((rng i).2.2 * 0.25) else 0)
    obtain ⟨ext2, h2⟩ := ih (i + 1)
      (w.spawnStatic t (rng i).1 (rng i).2.1 0
        (if (w.dataOf t).lifespan ≠ 0
          then (w.dataOf t).lifespan * ((rng i).2.2 * 0.25) else 0))
    exact ⟨ext1 ++ ext2, by rw [h2, h1, List.append_assoc]⟩

/-- Helper: the spawn loop preserves the target count function. -/
theorem go_targetCount (rng : Nat → Vec2 × Rat × Rat) (t : EntityType) :
    ∀ (n i : Nat) (w : World),
      (w.spawnStaticGo rng t n i).targetCount = w.targetCount := by
  intro n
  induction n with
  | zero => intro i w; rfl
  | succ n ih =>
    intro i w
    simp only [World.spawnStaticGo]
    rw [ih (i + 1) _, spawnStatic_targetCount]

/-- Helper: spawn_static_amount adds at most min(target - current, rate)
entities of its type. -/
theorem amount_count_le (w : World) (rng : Nat → Vec2 × Rat × Rat)
    (t : EntityType) (current target rate : Nat) :
    (w.spawnStaticAmount rng t current target rate).count t
      ≤ w.count t + min (target - current) rate :=
  go_count_le rng t _ 0 w

/-- Helper: spawn_static_amount leaves other counts alone. -/
theorem amount_count_ne (w : World) (rng : Nat → Vec2 × Rat × Rat)
    (t t2 : EntityType) (current target rate : Nat) (h : t ≠ t2) :
    (w.spawnStaticAmount rng t current target rate).count t2 = w.count t2 :=
  go_count_ne rng t t2 h _ 0 w

/-- Helper: spawn_static_amount never removes an entity. -/
theorem amount_entities_ext (w : World) (rng : Nat → Vec2 × Rat × Rat)
    (t : EntityType) (current target rate : Nat) :
    ∃ ext, (w.spawnStaticAmount rng t current target rate).entities
      = w.entities ++ ext :=
  go_entities_ext rng t _ 0 w

/-- Helper: spawn_static_amount preserves the target count function. -/
theorem amount_targetCount (w : World) (rng : Nat → Vec2 × Rat × Rat)
    (t : EntityType) (current target rate : Nat) :
    (w.spawnStaticAmount rng t current target rate).targetCount
      = w.targetCount :=
  go_targetCount rng t _ 0 w

/-- Claim C10, corrected: the claim as stated is false: the post-call
bound fails when a type is already over target plus budget, because
spawn_statics only ever adds entities. A zero-radius world (target
counts all zero) holding 151 crates still holds 151 after one tick of
spawn_statics, exceeding target + 150 * 1. -/
theorem c10_counterexample :
    (worldC10.spawnStatics rngC10 rngC10 rngC10 1).count EntityType.Crate = 151
    ∧ worldC10.targetCount CRATE_DENSITY + 1 * 150 < 151 :=
  ⟨by with_unfolding_all decide, by with_unfolding_all decide⟩

/-- Claim C10, amended: spawn_statics never removes an entity (the prior
entity list is a prefix of the new one), and it preserves the claimed
per-type bounds: whenever a maintained type satisfies count <= target +
rate * ticks before the call (rates 150 for Crate, 2 for OilPlatform
counted together with Hq, 1 for Acacia), it still does afterwards; a
world already above a bound merely stays at its current count. -/
theorem c10_spawnStatics_spec (w : World)
    (rngC rngP rngA : Nat → Vec2 × Rat × Rat) (ticks : Nat)
    (hC : w.count EntityType.Crate ≤ w.targetCount CRATE_DENSITY + ticks * 150)
    (hP : w.count EntityType.OilPlatform + w.count EntityType.Hq
      ≤ w.targetCount OBSTACLE_DENSITY + ticks * 2)
    (hA : w.count EntityType.Acacia
      ≤ w.targetCount VEGETATION_DENSITY + ticks * 1) :
    (∃ ext, (w.spawnStatics rngC rngP rngA ticks).entities = w.entities ++ ext)
    ∧ (w.spawnStatics rngC rngP rngA ticks).count EntityType.Crate
        ≤ w.targetCount CRATE_DENSITY + ticks * 150
    ∧ (w.spawnStatics rngC rngP rngA ticks).count EntityType.OilPlatform
        + (w.spawnStatics rngC rngP rngA ticks).count EntityType.Hq
        ≤ w.targetCount OBSTACLE_DENSITY + ticks * 2
    ∧ (w.spawnStatics rngC rngP rngA ticks).count EntityType.Acacia
        ≤ w.targetCount VEGETATION_DENSITY + ticks * 1 := by
  unfold World.spawnStatics
  simp only []
  set w1 := w.spawnStaticAmount rngC EntityType.Crate (w.count EntityType.Crate)
    (w.targetCount CRATE_DENSITY) (ticks * 150) with hw1
  set w2 := w1.spawnStaticAmount rngP EntityType.OilPlatform
    (w.count EntityType.OilPlatform + w.count EntityType.Hq)
    (w1.targetCount OBSTACLE_DENSITY) (ticks * 2) with hw2
  set w3 := w2.spawnStaticAmount rngA EntityType.Acacia
    (w2.count EntityType.Acacia)
    (max (w2.targetCount VEGETATION_DENSITY) 0) (ticks * 1) with hw3
  have ht1 : w1.targetCount = w.targetCount := by
    rw [hw1]; exact amount_targetCount _ _ _ _ _ _
  have ht2 : w2.targetCount = w.targetCount := by
    rw [hw2, amount_targetCount]; exact ht1
  -- crates
  have hc1 : w1.count EntityType.Crate
      ≤ w.count EntityType.Crate
        + min (w.targetCount CRATE_DENSITY - w.count EntityType.Crate)
          (ticks * 150) := by
    rw [hw1]; exact amount_count_le _ _ _ _ _ _
  have hc2 : w2.count EntityType.Crate = w1.count EntityType.Crate := by
    rw [hw2]; exact amount_count_ne _ _ _ _ _ _ _ (by decide)
  have hc3 : w3.count EntityType.Crate = w2.count EntityType.Crate := by
    rw [hw3]; exact amount_count_ne _ _ _ _ _ _ _ (by decide)
  -- platforms
  have hp1o : w1.count EntityType.OilPlatform = w.count EntityType.OilPlatform := by
    rw [hw1]; exact amount_count_ne _ _ _ _ _ _ _ (by decide)
  have hp1h : w1.count EntityType.Hq = w.count EntityType.Hq := by
    rw [hw1]; exact amount_count_ne _ _ _ _ _ _ _ (by decide)
  have hp2 : w2.count EntityType.OilPlatform
      ≤ w1.count EntityType.OilPlatform
        + min (w1.targetCount OBSTACLE_DENSITY
          - (w.count EntityType.OilPlatform + w.count EntityType.Hq))
          (ticks * 2) := by
    rw [hw2]; exact amount_count_le _ _ _ _ _ _
  have hp2h : w2.count EntityType.Hq = w1.count EntityType.Hq := by
    rw [hw2]; exact amount_count_ne _ _ _ _ _ _ _ (by decide)
  have hp3o : w3.count EntityType.OilPlatform = w2.count EntityType.OilPlatform := by
    rw [hw3]; exact amount_count_ne _ _ _ _ _ _ _ (by decide)
  have hp3h : w3.count EntityType.Hq = w2.count EntityType.Hq := by
    rw [hw3]; exact amount_count_ne _ _ _ _ _ _ _ (by decide)
  -- acacia
  have ha1 : w1.count EntityType.Acacia = w.count EntityType.Acacia := by
    rw [hw1]; exact amount_count_ne _ _ _ _ _ _ _ (by decide)
  have ha2 : w2.count EntityType.Acacia = w1.count EntityType.Acacia := by
    rw [hw2]; exact amount_count_ne _ _ _ _ _ _ _ (by decide)
  have ha3 : w3.count EntityType.Acacia
      ≤ w2.count EntityType.Acacia
        + min (max (w2.targetCount VEGETATION_DENSITY) 0
          - w2.count EntityType.Acacia) (ticks * 1) := by
    rw [hw3]; exact amount_count_le _ _ _ _ _ _
  -- extension
  have he1 : ∃ ext, w1.entities = w.entities ++ ext := by
    rw [hw1]; exact amount_entities_ext _ _ _ _ _ _
  have he2 : ∃ ext, w2.entities = w1.entities ++ ext := by
    rw [hw2]; exact amount_entities_ext _ _ _ _ _ _
  have he3 : ∃ ext, w3.entities = w2.entities ++ ext := by
    rw [hw3]; exact amount_entities_ext _ _ _ _ _ _
  obtain ⟨x1, hx1⟩ := he1
  obtain ⟨x2, hx2⟩ := he2
  obtain ⟨x3, hx3⟩ := he3
  refine ⟨⟨x1 ++ x2 ++ x3, ?_⟩, ?_, ?_, ?_⟩
  · rw [hx3, hx2, hx1]
    simp [List.append_assoc]
  · have hmin1 := Nat.min_le_left
      (w.targetCount CRATE_DENSITY - w.count EntityType.Crate) (ticks * 150)
    have hmin2 := Nat.min_le_right
      (w.targetCount CRATE_DENSITY - w.count EntityType.Crate) (ticks * 150)
    omega
  · rw [ht1] at hp2
    have hmin1 := Nat.min_le_left
      (w.targetCount OBSTACLE_DENSITY
        - (w.count EntityType.OilPlatform + w.count EntityType.Hq)) (ticks * 2)
    have hmin2 := Nat.min_le_right
      (w.targetCount OBSTACLE_DENSITY
        - (w.count EntityType.OilPlatform + w.count EntityType.Hq)) (ticks * 2)
    omega
  · rw [ht2] at ha3
    have hmin1 := Nat.min_le_left
      (max (w.targetCount VEGETATION_DENSITY) 0 - w2.count EntityType.Acacia)
      (ticks * 1)
    have hmin2 := Nat.min_le_right
      (max (w.targetCount VEGETATION_DENSITY) 0 - w2.count EntityType.Acacia)
      (ticks * 1)
    have hmax : max (w.targetCount VEGETATION_DENSITY) 0
        = w.targetCount VEGETATION_DENSITY := max_eq_left (Nat.zero_le _)
    omega

/-- Claim C10 witness: an empty world satisfies the preconditions, and a
single-tick call stays within every bound. -/
theorem c10_witness :
    (worldC10W.spawnStatics rngC10 rngC10 rngC10 1).count EntityType.Crate
      ≤ worldC10W.targetCount CRATE_DENSITY + 1 * 150 :=
  (c10_spawnStatics_spec worldC10W rngC10 rngC10 rngC10 1
    (by with_unfolding_all decide) (by with_unfolding_all decide)
    (by with_unfolding_all decide)).2.1

end Mk48
